import Mathlib

/-!
Verification of the Rift-Browser rendering core (`rust_engine`): DOM arena,
style resolution and the block/inline layout pass.

The Rust sources are shallowly embedded:
* `f32` values are modelled as exact rationals (`ℚ`); the layout arithmetic
  (addition, multiplication by constants, `min`/`max`, comparisons) is exact
  on the inputs considered, so no rounding model is needed;
* `HashMap`-backed stores (the DOM arena, attribute maps) are modelled as
  lookup functions / association lists;
* the recursive tree walks (`layout_node`, `find_body_node_id`, `deep_clone`),
  whose recursion follows child-id lookups in the arena and is therefore not
  structurally terminating, are embedded with an explicit fuel parameter; a
  `none` result marks fuel exhaustion (i.e. the source would still be
  recursing), `some` results are fuel-independent once the fuel exceeds the
  depth of the tree;
* sequentially executed stateful code is embedded by explicit state passing
  (`LoState` threads the arena, the box vector and the flow cursor).

Rust string operations are modelled on their exact semantics for the strings
that actually occur in this codebase (ASCII): `str::len` is the UTF-8 byte
count, `f32::from_str` / `i32::from_str` are modelled by `parseF32` /
`parseI32` on finite decimal/exponent literals (the `inf`/`nan` spellings and
overflow-to-infinity behaviour of `f32` are outside the model; no style value
in the claims is in that range).
-/

namespace RiftBrowser

/-- Helper for `splitWs`: accumulate the current token (reversed) while scanning. -/
def wsTokensGo : List Char → List Char → List (List Char)
  | [], cur => if cur.isEmpty then [] else [cur.reverse]
  | c :: rest, cur =>
    if c.isWhitespace then
      if cur.isEmpty then wsTokensGo rest [] else cur.reverse :: wsTokensGo rest []
    else
      wsTokensGo rest (c :: cur)

/-- Rust `str::split_whitespace`: whitespace-separated non-empty tokens. -/
def splitWs (s : String) : List String :=
  (wsTokensGo s.data []).map String.mk

/-- Rust `str::len`: the UTF-8 byte length of a string. -/
def strLen (s : String) : Nat :=
  (s.data.map Char.utf8Size).sum

/-- Rust `str::trim` (both ends; whitespace per `Char.isWhitespace`). -/
def trimStr (s : String) : String :=
  String.mk ((((s.data.dropWhile Char.isWhitespace).reverse).dropWhile Char.isWhitespace).reverse)

/-- Rust `str::to_lowercase` (ASCII range; all strings in this engine are ASCII). -/
def lowerStr (s : String) : String :=
  String.mk (s.data.map Char.toLower)

/-- Rust `str::eq_ignore_ascii_case`. -/
def eqIgnoreCase (a b : String) : Bool :=
  lowerStr a = lowerStr b

/-- Rust `str::starts_with`. -/
def startsWithStr (s p : String) : Bool :=
  p.data.isPrefixOf s.data

/-- Rust `str::ends_with`. -/
def endsWithStr (s p : String) : Bool :=
  p.data.reverse.isPrefixOf s.data.reverse

/-- Rust byte slice `&s[..s.len()-n]` for an ASCII suffix of `n` bytes. -/
def dropRightStr (s : String) (n : Nat) : String :=
  String.mk (s.data.take (s.data.length - n))

/-- Rust byte slice `&s[n..]` for an ASCII prefix of `n` bytes. -/
def dropStr (s : String) (n : Nat) : String :=
  String.mk (s.data.drop n)

/-- Helper for `containsStr`: does `sub` occur in the given character list. -/
def containsChars (sub : List Char) : List Char → Bool
  | [] => sub.isEmpty
  | c :: rest => sub.isPrefixOf (c :: rest) || containsChars sub rest

/-- Rust `str::contains(&str)`: substring containment. -/
def containsStr (s sub : String) : Bool :=
  containsChars sub.data s.data

/-- Value of a non-empty list of decimal digit characters. -/
def digitsVal? : List Char → Option Nat
  | [] => none
  | cs =>
    if cs.all Char.isDigit then
      some (cs.foldl (fun acc c => acc * 10 + (c.toNat - 48)) 0)
    else
      none

/-- Split a sign off the front of a character list, as Rust numeric parsing does. -/
def splitSign : List Char → (Bool × List Char)
  | '+' :: rest => (false, rest)
  | '-' :: rest => (true, rest)
  | rest => (false, rest)

/-- Mantissa of a float literal: `digits`, `digits.`, `digits.digits` or `.digits`. -/
def parseMantissa? (cs : List Char) : Option ℚ :=
  let ip := cs.takeWhile (fun c => c ≠ '.')
  let rest := cs.dropWhile (fun c => c ≠ '.')
  match rest with
  | [] =>
    (digitsVal? ip).map (fun n => (n : ℚ))
  | _ :: fp =>
    if ip.all Char.isDigit ∧ fp.all Char.isDigit ∧ ¬(ip = [] ∧ fp = []) then
      some ((ip.foldl (fun acc c => acc * 10 + (c.toNat - 48)) 0 : ℚ)
        + (fp.foldl (fun acc c => acc * 10 + (c.toNat - 48)) 0 : ℚ) / (10 : ℚ) ^ fp.length)
    else
      none

/-- Rust `f32::from_str` on finite decimal literals, with exact rational
semantics: optional sign, decimal mantissa, optional `e`/`E` exponent.
The `inf`/`nan` spellings are not modelled (they never occur here). -/
def parseF32 (s : String) : Option ℚ :=
  let (neg, cs) := splitSign s.data
  let mant := cs.takeWhile (fun c => c ≠ 'e' ∧ c ≠ 'E')
  let expPart := cs.dropWhile (fun c => c ≠ 'e' ∧ c ≠ 'E')
  let expVal : Option (Bool × Nat) :=
    match expPart with
    | [] => some (false, 0)
    | _ :: ecs =>
      let (eneg, eds) := splitSign ecs
      (digitsVal? eds).map (fun n => (eneg, n))
  match parseMantissa? mant, expVal with
  | some m, some (eneg, emag) =>
    let signed := if neg then -m else m
    some (if eneg then signed / (10 : ℚ) ^ emag else signed * (10 : ℚ) ^ emag)
  | _, _ => none

/-- Rust `i32::from_str`: optional sign and decimal digits, within `i32` range. -/
def parseI32 (s : String) : Option ℤ :=
  let (neg, cs) := splitSign s.data
  match digitsVal? cs with
  | some n =>
    let v : ℤ := if neg then -(n : ℤ) else (n : ℤ)
    if -2147483648 ≤ v ∧ v ≤ 2147483647 then some v else none
  | none => none

/-! ## Data model (dom/node.rs) -/

/-- `NodeType` (dom/node.rs). -/
inductive NodeType where
  | Element (tag : String)
  | Text
  | Document
deriving DecidableEq, Repr

/-- `StyleMap` (dom/node.rs): the fixed bag of CSS property strings. -/
structure StyleMap where
  display : String
  width : String
  height : String
  background_color : String
  color : String
  font_size : String
  font_family : String
  border_width : String
  border_color : String
  padding : String
  margin : String
  font_weight : String
  text_align : String
  position : String
  top : String
  right : String
  bottom : String
  left : String
  z_index : String
  min_width : String
  max_width : String
  min_height : String
  max_height : String
  background : String
  opacity : String
  visibility : String
  font_style : String
  text_decoration : String
  letter_spacing : String
  word_spacing : String
  border_style : String
  border : String
  border_radius : String
  padding_top : String
  padding_right : String
  padding_bottom : String
  padding_left : String
  margin_top : String
  margin_right : String
  margin_bottom : String
  margin_left : String
  flex_direction : String
  flex_wrap : String
  justify_content : String
  align_items : String
  align_content : String
  flex_grow : String
  flex_shrink : String
  flex_basis : String
  order : String
  grid_template_columns : String
  grid_template_rows : String
  grid_gap : String
  grid_column : String
  grid_row : String
  grid_area : String
  line_height : String
  word_wrap : String
  white_space : String
  text_overflow : String
  overflow : String
  overflow_x : String
  overflow_y : String
  transform : String
  transform_origin : String
  color_scheme : String
  box_sizing : String
  cursor : String
  pointer_events : String
  user_select : String
  float : String
  clear : String
  background_image : String
  background_repeat : String
  background_position : String
  background_size : String
  font_variant : String
  text_transform : String
  text_indent : String
  border_top : String
  border_right : String
  border_bottom : String
  border_left : String
  outline : String
  outline_width : String
  outline_color : String
  outline_style : String
  flex : String
  grid : String
  transition : String
  animation : String
  box_shadow : String
  text_shadow : String
deriving DecidableEq, Repr

/-- `StyleMap::default` (dom/node.rs): the documented property defaults. -/
def StyleMap.default : StyleMap where
  display := "block"
  width := "auto"
  height := "auto"
  background_color := "transparent"
  color := "black"
  font_size := "16"
  font_family := "Arial"
  border_width := "0"
  border_color := "black"
  padding := "0"
  margin := "0"
  font_weight := "400"
  text_align := "left"
  position := "static"
  top := "auto"
  right := "auto"
  bottom := "auto"
  left := "auto"
  z_index := "auto"
  min_width := "0"
  max_width := "none"
  min_height := "0"
  max_height := "none"
  background := "transparent"
  opacity := "1"
  visibility := "visible"
  font_style := "normal"
  text_decoration := "none"
  letter_spacing := "normal"
  word_spacing := "normal"
  border_style := "none"
  border := "0"
  border_radius := "0"
  padding_top := "0"
  padding_right := "0"
  padding_bottom := "0"
  padding_left := "0"
  margin_top := "0"
  margin_right := "0"
  margin_bottom := "0"
  margin_left := "0"
  flex_direction := "row"
  flex_wrap := "nowrap"
  justify_content := "flex-start"
  align_items := "stretch"
  align_content := "stretch"
  flex_grow := "0"
  flex_shrink := "1"
  flex_basis := "0%"
  order := "0"
  grid_template_columns := "auto"
  grid_template_rows := "auto"
  grid_gap := "0"
  grid_column := "auto"
  grid_row := "auto"
  grid_area := "auto"
  line_height := "normal"
  word_wrap := "normal"
  white_space := "normal"
  text_overflow := "clip"
  overflow := "visible"
  overflow_x := "visible"
  overflow_y := "visible"
  transform := "none"
  transform_origin := "50% 50%"
  color_scheme := "light"
  box_sizing := "content-box"
  cursor := "default"
  pointer_events := "auto"
  user_select := "text"
  float := "none"
  clear := "none"
  background_image := "none"
  background_repeat := "repeat"
  background_position := "0% 0%"
  background_size := "auto"
  font_variant := "normal"
  text_transform := "none"
  text_indent := "0"
  border_top := "none"
  border_right := "none"
  border_bottom := "none"
  border_left := "none"
  outline := "none"
  outline_width := "medium"
  outline_color := "invert"
  outline_style := "none"
  flex := "0 1 auto"
  grid := "none"
  transition := "none"
  animation := "none"
  box_shadow := "none"
  text_shadow := "none"

/-- `StyleMap::merge` (dom/node.rs): property-wise override, empty string never copied. -/
def StyleMap.mergeWith (self other : StyleMap) : StyleMap where
  display := if other.display ≠ "" then other.display else self.display
  width := if other.width ≠ "" then other.width else self.width
  height := if other.height ≠ "" then other.height else self.height
  background_color := if other.background_color ≠ "" then other.background_color else self.background_color
  color := if other.color ≠ "" then other.color else self.color
  font_size := if other.font_size ≠ "" then other.font_size else self.font_size
  font_family := if other.font_family ≠ "" then other.font_family else self.font_family
  border_width := if other.border_width ≠ "" then other.border_width else self.border_width
  border_color := if other.border_color ≠ "" then other.border_color else self.border_color
  padding := if other.padding ≠ "" then other.padding else self.padding
  margin := if other.margin ≠ "" then other.margin else self.margin
  font_weight := if other.font_weight ≠ "" then other.font_weight else self.font_weight
  text_align := if other.text_align ≠ "" then other.text_align else self.text_align
  position := if other.position ≠ "" then other.position else self.position
  top := if other.top ≠ "" then other.top else self.top
  right := if other.right ≠ "" then other.right else self.right
  bottom := if other.bottom ≠ "" then other.bottom else self.bottom
  left := if other.left ≠ "" then other.left else self.left
  z_index := if other.z_index ≠ "" then other.z_index else self.z_index
  min_width := if other.min_width ≠ "" then other.min_width else self.min_width
  max_width := if other.max_width ≠ "" then other.max_width else self.max_width
  min_height := if other.min_height ≠ "" then other.min_height else self.min_height
  max_height := if other.max_height ≠ "" then other.max_height else self.max_height
  background := if other.background ≠ "" then other.background else self.background
  opacity := if other.opacity ≠ "" then other.opacity else self.opacity
  visibility := if other.visibility ≠ "" then other.visibility else self.visibility
  font_style := if other.font_style ≠ "" then other.font_style else self.font_style
  text_decoration := if other.text_decoration ≠ "" then other.text_decoration else self.text_decoration
  letter_spacing := if other.letter_spacing ≠ "" then other.letter_spacing else self.letter_spacing
  word_spacing := if other.word_spacing ≠ "" then other.word_spacing else self.word_spacing
  border_style := if other.border_style ≠ "" then other.border_style else self.border_style
  border := if other.border ≠ "" then other.border else self.border
  border_radius := if other.border_radius ≠ "" then other.border_radius else self.border_radius
  padding_top := if other.padding_top ≠ "" then other.padding_top else self.padding_top
  padding_right := if other.padding_right ≠ "" then other.padding_right else self.padding_right
  padding_bottom := if other.padding_bottom ≠ "" then other.padding_bottom else self.padding_bottom
  padding_left := if other.padding_left ≠ "" then other.padding_left else self.padding_left
  margin_top := if other.margin_top ≠ "" then other.margin_top else self.margin_top
  margin_right := if other.margin_right ≠ "" then other.margin_right else self.margin_right
  margin_bottom := if other.margin_bottom ≠ "" then other.margin_bottom else self.margin_bottom
  margin_left := if other.margin_left ≠ "" then other.margin_left else self.margin_left
  flex_direction := if other.flex_direction ≠ "" then other.flex_direction else self.flex_direction
  flex_wrap := if other.flex_wrap ≠ "" then other.flex_wrap else self.flex_wrap
  justify_content := if other.justify_content ≠ "" then other.justify_content else self.justify_content
  align_items := if other.align_items ≠ "" then other.align_items else self.align_items
  align_content := if other.align_content ≠ "" then other.align_content else self.align_content
  flex_grow := if other.flex_grow ≠ "" then other.flex_grow else self.flex_grow
  flex_shrink := if other.flex_shrink ≠ "" then other.flex_shrink else self.flex_shrink
  flex_basis := if other.flex_basis ≠ "" then other.flex_basis else self.flex_basis
  order := if other.order ≠ "" then other.order else self.order
  grid_template_columns := if other.grid_template_columns ≠ "" then other.grid_template_columns else self.grid_template_columns
  grid_template_rows := if other.grid_template_rows ≠ "" then other.grid_template_rows else self.grid_template_rows
  grid_gap := if other.grid_gap ≠ "" then other.grid_gap else self.grid_gap
  grid_column := if other.grid_column ≠ "" then other.grid_column else self.grid_column
  grid_row := if other.grid_row ≠ "" then other.grid_row else self.grid_row
  grid_area := if other.grid_area ≠ "" then other.grid_area else self.grid_area
  line_height := if other.line_height ≠ "" then other.line_height else self.line_height
  word_wrap := if other.word_wrap ≠ "" then other.word_wrap else self.word_wrap
  white_space := if other.white_space ≠ "" then other.white_space else self.white_space
  text_overflow := if other.text_overflow ≠ "" then other.text_overflow else self.text_overflow
  overflow := if other.overflow ≠ "" then other.overflow else self.overflow
  overflow_x := if other.overflow_x ≠ "" then other.overflow_x else self.overflow_x
  overflow_y := if other.overflow_y ≠ "" then other.overflow_y else self.overflow_y
  transform := if other.transform ≠ "" then other.transform else self.transform
  transform_origin := if other.transform_origin ≠ "" then other.transform_origin else self.transform_origin
  color_scheme := if other.color_scheme ≠ "" then other.color_scheme else self.color_scheme
  box_sizing := if other.box_sizing ≠ "" then other.box_sizing else self.box_sizing
  cursor := if other.cursor ≠ "" then other.cursor else self.cursor
  pointer_events := if other.pointer_events ≠ "" then other.pointer_events else self.pointer_events
  user_select := if other.user_select ≠ "" then other.user_select else self.user_select
  float := if other.float ≠ "" then other.float else self.float
  clear := if other.clear ≠ "" then other.clear else self.clear
  background_image := if other.background_image ≠ "" then other.background_image else self.background_image
  background_repeat := if other.background_repeat ≠ "" then other.background_repeat else self.background_repeat
  background_position := if other.background_position ≠ "" then other.background_position else self.background_position
  background_size := if other.background_size ≠ "" then other.background_size else self.background_size
  font_variant := if other.font_variant ≠ "" then other.font_variant else self.font_variant
  text_transform := if other.text_transform ≠ "" then other.text_transform else self.text_transform
  text_indent := if other.text_indent ≠ "" then other.text_indent else self.text_indent
  border_top := if other.border_top ≠ "" then other.border_top else self.border_top
  border_right := if other.border_right ≠ "" then other.border_right else self.border_right
  border_bottom := if other.border_bottom ≠ "" then other.border_bottom else self.border_bottom
  border_left := if other.border_left ≠ "" then other.border_left else self.border_left
  outline := if other.outline ≠ "" then other.outline else self.outline
  outline_width := if other.outline_width ≠ "" then other.outline_width else self.outline_width
  outline_color := if other.outline_color ≠ "" then other.outline_color else self.outline_color
  outline_style := if other.outline_style ≠ "" then other.outline_style else self.outline_style
  flex := if other.flex ≠ "" then other.flex else self.flex
  grid := if other.grid ≠ "" then other.grid else self.grid
  transition := if other.transition ≠ "" then other.transition else self.transition
  animation := if other.animation ≠ "" then other.animation else self.animation
  box_shadow := if other.box_shadow ≠ "" then other.box_shadow else self.box_shadow
  text_shadow := if other.text_shadow ≠ "" then other.text_shadow else self.text_shadow

/-- `StyleMap::get_property` (dom/node.rs): string-keyed property read. -/
def StyleMap.getProperty (self : StyleMap) (property : String) : Option String :=
  if property = "display" then some self.display
  else if property = "width" then some self.width
  else if property = "height" then some self.height
  else if property = "background-color" then some self.background_color
  else if property = "color" then some self.color
  else if property = "font-size" then some self.font_size
  else if property = "font-family" then some self.font_family
  else if property = "border-width" then some self.border_width
  else if property = "border-color" then some self.border_color
  else if property = "padding" then some self.padding
  else if property = "margin" then some self.margin
  else if property = "font-weight" then some self.font_weight
  else if property = "text-align" then some self.text_align
  else if property = "position" then some self.position
  else if property = "top" then some self.top
  else if property = "right" then some self.right
  else if property = "bottom" then some self.bottom
  else if property = "left" then some self.left
  else if property = "z-index" then some self.z_index
  else if property = "min-width" then some self.min_width
  else if property = "max-width" then some self.max_width
  else if property = "min-height" then some self.min_height
  else if property = "max-height" then some self.max_height
  else if property = "background" then some self.background
  else if property = "opacity" then some self.opacity
  else if property = "visibility" then some self.visibility
  else if property = "font-style" then some self.font_style
  else if property = "text-decoration" then some self.text_decoration
  else if property = "letter-spacing" then some self.letter_spacing
  else if property = "word-spacing" then some self.word_spacing
  else if property = "border-style" then some self.border_style
  else if property = "border" then some self.border
  else if property = "border-radius" then some self.border_radius
  else if property = "padding-top" then some self.padding_top
  else if property = "padding-right" then some self.padding_right
  else if property = "padding-bottom" then some self.padding_bottom
  else if property = "padding-left" then some self.padding_left
  else if property = "margin-top" then some self.margin_top
  else if property = "margin-right" then some self.margin_right
  else if property = "margin-bottom" then some self.margin_bottom
  else if property = "margin-left" then some self.margin_left
  else if property = "flex-direction" then some self.flex_direction
  else if property = "flex-wrap" then some self.flex_wrap
  else if property = "justify-content" then some self.justify_content
  else if property = "align-items" then some self.align_items
  else if property = "align-content" then some self.align_content
  else if property = "flex-grow" then some self.flex_grow
  else if property = "flex-shrink" then some self.flex_shrink
  else if property = "flex-basis" then some self.flex_basis
  else if property = "order" then some self.order
  else if property = "grid-template-columns" then some self.grid_template_columns
  else if property = "grid-template-rows" then some self.grid_template_rows
  else if property = "grid-gap" then some self.grid_gap
  else if property = "grid-column" then some self.grid_column
  else if property = "grid-row" then some self.grid_row
  else if property = "grid-area" then some self.grid_area
  else if property = "line-height" then some self.line_height
  else if property = "word-wrap" then some self.word_wrap
  else if property = "white-space" then some self.white_space
  else if property = "text-overflow" then some self.text_overflow
  else if property = "overflow" then some self.overflow
  else if property = "overflow-x" then some self.overflow_x
  else if property = "overflow-y" then some self.overflow_y
  else if property = "transform" then some self.transform
  else if property = "transform-origin" then some self.transform_origin
  else if property = "color-scheme" then some self.color_scheme
  else if property = "box-sizing" then some self.box_sizing
  else if property = "cursor" then some self.cursor
  else if property = "pointer-events" then some self.pointer_events
  else if property = "user-select" then some self.user_select
  else if property = "float" then some self.float
  else if property = "clear" then some self.clear
  else if property = "background-image" then some self.background_image
  else if property = "background-repeat" then some self.background_repeat
  else if property = "background-position" then some self.background_position
  else if property = "background-size" then some self.background_size
  else if property = "font-variant" then some self.font_variant
  else if property = "text-transform" then some self.text_transform
  else if property = "text-indent" then some self.text_indent
  else if property = "border-top" then some self.border_top
  else if property = "border-right" then some self.border_right
  else if property = "border-bottom" then some self.border_bottom
  else if property = "border-left" then some self.border_left
  else if property = "outline" then some self.outline
  else if property = "outline-width" then some self.outline_width
  else if property = "outline-color" then some self.outline_color
  else if property = "outline-style" then some self.outline_style
  else if property = "flex" then some self.flex
  else if property = "grid" then some self.grid
  else if property = "transition" then some self.transition
  else if property = "animation" then some self.animation
  else if property = "box-shadow" then some self.box_shadow
  else if property = "text-shadow" then some self.text_shadow
  else none

/-- `BoxValues` (dom/node.rs): per-side numeric values; `#[derive(Default)]` gives all zeroes. -/
structure BoxValues where
  top : ℚ
  right : ℚ
  bottom : ℚ
  left : ℚ
deriving DecidableEq, Repr

/-- `BoxValues::default`. -/
def BoxValues.default : BoxValues := ⟨0, 0, 0, 0⟩

/-- `DOMNode` (dom/node.rs). `HashMap`s are modelled as association lists. -/
structure DOMNode where
  id : String
  node_type : NodeType
  children : List String
  parent : Option String
  text_content : String
  attributes : List (String × String)
  styles : StyleMap
  event_listeners : List (String × List Nat)
deriving DecidableEq, Repr

/-- Association-list lookup, modelling `HashMap::get`. -/
def lookupAL {β : Type} (k : String) : List (String × β) → Option β
  | [] => none
  | (k', v) :: rest => if k' = k then some v else lookupAL k rest

/-- `DOMArena` (dom/node.rs): the id-keyed node store, as a lookup function. -/
def Arena : Type := String → Option DOMNode

/-- `DOMArena::get_node`. -/
def Arena.getNode (a : Arena) (id : String) : Option DOMNode := a id

/-- `HashMap::insert` on the arena: point update of the lookup function. -/
def updateA (a : Arena) (k : String) (n : DOMNode) : Arena :=
  fun x => if x = k then some n else a x

/-- `LayoutBox` (dom/node.rs): the output unit of the layout pass. -/
structure LayoutBox where
  x : ℚ
  y : ℚ
  width : ℚ
  height : ℚ
  node_type : String
  text_content : String
  background_color : String
  color : String
  font_size : ℚ
  font_family : String
  border_width : BoxValues
  border_color : String
  padding : BoxValues
  margin : BoxValues
  font_weight : ℚ
  text_align : String
  flex_direction : String
  flex_wrap : String
  justify_content : String
  align_items : String
  flex_grow : ℚ
  flex_shrink : ℚ
  flex_basis : String
  order : ℤ
  grid_column : String
  grid_row : String
  line_height : ℚ
  word_wrap : String
  white_space : String
  text_overflow : String
  color_scheme : String
deriving DecidableEq, Repr

/-- `CssRule` (parser/css.rs): selector, declaration map and specificity score. -/
structure CssRule where
  selector : String
  declarations : List (String × String)
  specificity : Nat
deriving DecidableEq, Repr

/-- `Stylesheet` (parser/css.rs): the ordered rule list (parsing statistics omitted:
they are write-only logging metadata, never read by the engine). -/
structure Stylesheet where
  rules : List CssRule
deriving DecidableEq, Repr

/-! ## Style resolution (ffi/mod.rs, layout/layout.rs) -/

/-- `matches_selector` (ffi/mod.rs): exact tag, `.class` membership or `#id` equality. -/
def matchesSelector (node : DOMNode) (selector : String) : Bool :=
  match node.node_type with
  | .Element tag_name =>
    if selector = tag_name then true
    else if startsWithStr selector "." then
      match lookupAL "class" node.attributes with
      | some classes => (splitWs classes).any (fun c => c = dropStr selector 1)
      | none => false
    else if startsWithStr selector "#" then
      match lookupAL "id" node.attributes with
      | some id => id = dropStr selector 1
      | none => false
    else false
  | _ => false

/-- `LayoutEngine::apply_css_property` (layout/layout.rs): the reduced property
set the layout engine applies during the stylesheet cascade. -/
def applyCssProperty (styles : StyleMap) (property value : String) : StyleMap :=
  let p := lowerStr property
  if p = "display" then { styles with display := value }
  else if p = "width" then { styles with width := value }
  else if p = "height" then { styles with height := value }
  else if p = "background-color" then { styles with background_color := value }
  else if p = "color" then { styles with color := value }
  else if p = "font-size" then { styles with font_size := value }
  else if p = "font-family" then { styles with font_family := value }
  else if p = "border-width" then { styles with border_width := value }
  else if p = "border-color" then { styles with border_color := value }
  else if p = "padding" then { styles with padding := value }
  else if p = "margin" then { styles with margin := value }
  else if p = "font-weight" then { styles with font_weight := value }
  else if p = "text-align" then { styles with text_align := value }
  else styles

/-- `LayoutEngine::apply_stylesheet_to_node` (layout/layout.rs): rules applied
in stylesheet order; every matching rule's declarations overwrite. -/
def applyStylesheetToNode (node : DOMNode) (stylesheet : Stylesheet) (styles : StyleMap) : StyleMap :=
  match node.node_type with
  | .Element _ =>
    stylesheet.rules.foldl (fun acc rule =>
      if matchesSelector node rule.selector then
        rule.declarations.foldl (fun acc2 pv => applyCssProperty acc2 pv.1 pv.2) acc
      else acc) styles
  | _ => styles

/-- `LayoutEngine::get_node_styles` (layout/layout.rs): defaults, then the inline
`style` attribute, then the stylesheet. The inline-CSS parser
(`parse_inline_styles`, parser/css.rs) is an external collaborator of this core
(spec section 6: CSS text parsing is out of scope), so it is a parameter `pi`. -/
def getNodeStyles (pi : String → StyleMap) (stylesheet : Option Stylesheet) (node : DOMNode) : StyleMap :=
  let styles := StyleMap.default
  let styles :=
    match lookupAL "style" node.attributes with
    | some style_attr => styles.mergeWith (pi style_attr)
    | none => styles
  match stylesheet with
  | some sheet => applyStylesheetToNode node sheet styles
  | none => styles

/-! ## Layout engine (layout/layout.rs). The `LayoutEngine` value is its
viewport (`vw`, `vh`) and optional stylesheet `ss`; these are passed as
parameters. -/

/-- `LayoutEngine::MAX_LAYOUT_BOXES`. -/
def MAX_LAYOUT_BOXES : Nat := 100000

/-- `LayoutEngine::MAX_DOM_NODES`. -/
def MAX_DOM_NODES : Nat := 200000

/-- `LayoutEngine::MAX_LAYOUT_TIME_MS`. -/
def MAX_LAYOUT_TIME_MS : Nat := 60000

/-- `LayoutEngine::parse_length` (layout/layout.rs). Note the percent branch
decides the axis by testing whether the *value string* contains `"width"`. -/
def parseLength (vw vh : ℚ) (value : String) (default : ℚ) : ℚ :=
  if value = "" then default
  else if endsWithStr value "px" then (parseF32 (dropRightStr value 2)).getD default
  else if endsWithStr value "%" then
    let percent := (parseF32 (dropRightStr value 1)).getD 0
    if containsStr value "width" then vw * percent / 100 else vh * percent / 100
  else (parseF32 value).getD default

/-- `parse_box_value` (layout/layout.rs): the 1/2/4-token shorthand expansion. -/
def parseBoxValue (value : String) : BoxValues :=
  match splitWs value with
  | [a] =>
    let v := (parseF32 a).getD 0
    ⟨v, v, v, v⟩
  | [a, b] =>
    let top_bottom := (parseF32 a).getD 0
    let left_right := (parseF32 b).getD 0
    ⟨top_bottom, left_right, top_bottom, left_right⟩
  | [a, b, c, d] =>
    ⟨(parseF32 a).getD 0, (parseF32 b).getD 0, (parseF32 c).getD 0, (parseF32 d).getD 0⟩
  | _ => BoxValues.default

/-- `LayoutEngine::calculate_block_dimensions` (layout/layout.rs). -/
def calculateBlockDimensions (vw vh : ℚ) (styles : StyleMap) (tag_name : String) : ℚ × ℚ :=
  let width := parseLength vw vh styles.width (vw * 0.9)
  let height := parseLength vw vh styles.height (if tag_name = "p" then 20 else 100)
  (min width (vw * 0.9), min height (vh * 0.9))

/-- `LayoutEngine::extract_text_content` (layout/layout.rs): own text for a text
node, the concatenated direct text children for an element, trimmed. -/
def extractTextContent (node : DOMNode) (arena : Arena) : String :=
  match node.node_type with
  | .Text => trimStr node.text_content
  | .Element _ =>
    trimStr (node.children.foldl (fun acc child =>
      match arena.getNode child with
      | some c =>
        match c.node_type with
        | .Text => acc ++ c.text_content ++ " "
        | _ => acc
      | none => acc) "")
  | _ => trimStr ""

/-- The block-level default tag set of `layout_node` (layout/layout.rs line 120). -/
def blockTags : List String :=
  ["div", "p", "h1", "h2", "h3", "h4", "h5", "h6", "section", "article",
   "header", "footer", "nav", "main", "aside"]

/-- The inline default tag set of `layout_node` (layout/layout.rs line 121). -/
def inlineTags : List String :=
  ["span", "a", "strong", "em", "b", "i", "u", "code", "small"]

/-- The `is_block` test of `layout_node`: lowercased resolved display is
`"block"`, or the tag is in the block set. -/
def isBlockB (display tag_name : String) : Bool :=
  display = "block" || blockTags.contains tag_name

/-- The `is_inline` test of `layout_node`: lowercased resolved display is
`"inline"`, or the tag is in the inline set. -/
def isInlineB (display tag_name : String) : Bool :=
  display = "inline" || inlineTags.contains tag_name

/-- Flow state of the basic layout pass: the traversal's mutable variables
(`boxes`, `current_x`, `current_y`, `line_height`, `in_inline_context`), with
the arena threaded through explicitly (the pass only ever reads it). -/
structure LoState where
  arena : Arena
  boxes : List LayoutBox
  x : ℚ
  y : ℚ
  lineHeight : ℚ
  inlineCtx : Bool

/-- The child loop of `layout_node`: look up each child id, recurse when
present, silently skip missing ids. `f` lays out one child (one depth level
further down); a `none` from `f` is fuel exhaustion and propagates. -/
def layoutKids (f : DOMNode → LoState → Option LoState) : List String → LoState → Option LoState
  | [], st => some st
  | cid :: rest, st =>
    match st.arena.getNode cid with
    | some child =>
      match f child st with
      | some st2 => layoutKids f rest st2
      | none => none
    | none => layoutKids f rest st

/-- One level of `LayoutEngine::layout_node` (layout/layout.rs lines 114-334);
`f` performs the recursive calls for the children. -/
def layoutStep (pi : String → StyleMap) (vw vh : ℚ) (ss : Option Stylesheet)
    (f : DOMNode → LoState → Option LoState) (node : DOMNode) (st : LoState) :
    Option LoState :=
  let styles := getNodeStyles pi ss node
  let display := lowerStr styles.display
  match node.node_type with
  | .Element tag_name =>
    let is_block := isBlockB display tag_name
    let is_inline := isInlineB display tag_name
    if is_block then
      let st :=
        if st.inlineCtx then
          { st with x := 0, y := st.y + st.lineHeight, lineHeight := 0, inlineCtx := false }
        else st
      let wh := calculateBlockDimensions vw vh styles tag_name
      let margin := parseBoxValue styles.margin
      let padding := parseBoxValue styles.padding
      let st := { st with x := st.x + margin.left, y := st.y + margin.top }
      let box : LayoutBox :=
      { x := st.x,
        y := st.y,
        width := wh.1 + padding.left + padding.right,
        height := wh.2 + padding.top + padding.bottom,
        node_type := tag_name,
        text_content := extractTextContent node st.arena,
        font_size := (parseF32 styles.font_size).getD 16,
        background_color := styles.background_color,
        color := styles.color,
        font_family := styles.font_family,
        border_color := styles.border_color,
        border_width := parseBoxValue styles.border_width,
        margin := margin,
        padding := padding,
        font_weight := (parseF32 styles.font_weight).getD 400,
        text_align := styles.text_align,
        flex_direction := styles.flex_direction,
        flex_wrap := styles.flex_wrap,
        justify_content := styles.justify_content,
        align_items := styles.align_items,
        flex_grow := (parseF32 styles.flex_grow).getD 0,
        flex_shrink := (parseF32 styles.flex_shrink).getD 1,
        flex_basis := styles.flex_basis,
        order := (parseI32 styles.order).getD 0,
        grid_column := styles.grid_column,
        grid_row := styles.grid_row,
        line_height := (parseF32 styles.line_height).getD 1.2,
        word_wrap := styles.word_wrap,
        white_space := styles.white_space,
        text_overflow := styles.text_overflow,
        color_scheme := styles.color_scheme }
      let st := { st with boxes := st.boxes ++ [box], x := 0,
                          y := st.y + wh.2 + padding.top + padding.bottom + margin.bottom,
                          lineHeight := 0 }
      layoutKids f node.children st
    else if is_inline then
      let st := { st with inlineCtx := true }
      let text_content := extractTextContent node st.arena
      let font_size := (parseF32 styles.font_size).getD 16
      let estimated_width := (strLen text_content : ℚ) * font_size * 0.6
      let estimated_height := font_size * 1.2
      let margin := parseBoxValue styles.margin
      let padding := parseBoxValue styles.padding
      let st :=
        if st.x + estimated_width + margin.left + margin.right + padding.left + padding.right
            > vw * 0.9 then
          { st with x := 0, y := st.y + st.lineHeight, lineHeight := 0 }
        else st
      let st := { st with x := st.x + margin.left }
      let box : LayoutBox :=
      { x := st.x,
        y := st.y,
        width := estimated_width + padding.left + padding.right,
        height := estimated_height + padding.top + padding.bottom,
        node_type := tag_name,
        text_content := text_content,
        font_size := font_size,
        background_color := styles.background_color,
        color := styles.color,
        font_family := styles.font_family,
        border_color := styles.border_color,
        border_width := parseBoxValue styles.border_width,
        margin := margin,
        padding := padding,
        font_weight := (parseF32 styles.font_weight).getD 400,
        text_align := styles.text_align,
        flex_direction := styles.flex_direction,
        flex_wrap := styles.flex_wrap,
        justify_content := styles.justify_content,
        align_items := styles.align_items,
        flex_grow := (parseF32 styles.flex_grow).getD 0,
        flex_shrink := (parseF32 styles.flex_shrink).getD 1,
        flex_basis := styles.flex_basis,
        order := (parseI32 styles.order).getD 0,
        grid_column := styles.grid_column,
        grid_row := styles.grid_row,
        line_height := (parseF32 styles.line_height).getD 1.2,
        word_wrap := styles.word_wrap,
        white_space := styles.white_space,
        text_overflow := styles.text_overflow,
        color_scheme := styles.color_scheme }
      let st := { st with boxes := st.boxes ++ [box],
                          x := st.x + estimated_width + padding.left + padding.right + margin.right,
                          lineHeight := max st.lineHeight (estimated_height + padding.top + padding.bottom) }
      layoutKids f node.children st
    else
      layoutKids f node.children st
  | .Text =>
    let text_content := trimStr node.text_content
    if text_content ≠ "" then
      let font_size : ℚ := 16
      let estimated_width := (strLen text_content : ℚ) * font_size * 0.6
      let estimated_height := font_size * 1.2
      let st :=
        if st.x + estimated_width > vw * 0.9 then
          { st with x := 0, y := st.y + st.lineHeight, lineHeight := 0, inlineCtx := false }
        else st
      let box : LayoutBox :=
      { x := st.x,
        y := st.y,
        width := estimated_width,
        height := estimated_height,
        node_type := "text",
        text_content := text_content,
        background_color := "transparent",
        color := "#000000",
        font_size := font_size,
        font_family := "Arial",
        border_color := "transparent",
        border_width := BoxValues.default,
        margin := BoxValues.default,
        padding := BoxValues.default,
        font_weight := 400,
        text_align := "left",
        flex_direction := "row",
        flex_wrap := "nowrap",
        justify_content := "flex-start",
        align_items := "stretch",
        flex_grow := 0,
        flex_shrink := 1,
        flex_basis := "auto",
        order := 0,
        grid_column := "auto",
        grid_row := "auto",
        line_height := 1.2,
        word_wrap := "normal",
        white_space := "normal",
        text_overflow := "clip",
        color_scheme := "light" }
      some { st with boxes := st.boxes ++ [box],
                     x := st.x + estimated_width,
                     lineHeight := max st.lineHeight estimated_height,
                     inlineCtx := true }
    else
      some st
  | _ => layoutKids f node.children st

/-- `LayoutEngine::layout_node` with fuel; fuel `d` completes any walk whose
recursion depth stays below `d`. -/
def layoutNode (pi : String → StyleMap) (vw vh : ℚ) (ss : Option Stylesheet) :
    Nat → DOMNode → LoState → Option LoState
  | 0, _, _ => none
  | fuel + 1, node, st => layoutStep pi vw vh ss (layoutNode pi vw vh ss fuel) node st

/-- Child loop of `find_body_node_id`: first found body id wins. -/
def findBodyKids (f : DOMNode → Option (Option String)) (arena : Arena) :
    List String → Option (Option String)
  | [] => some none
  | cid :: rest =>
    match arena.getNode cid with
    | some child =>
      match f child with
      | none => none
      | some (some found) => some (some found)
      | some none => findBodyKids f arena rest
    | none => findBodyKids f arena rest

/-- `LayoutEngine::find_body_node_id` (layout/layout.rs) with fuel. -/
def findBodyNodeId (arena : Arena) : Nat → DOMNode → Option (Option String)
  | 0, _ => none
  | fuel + 1, node =>
    match node.node_type with
    | .Element tag =>
      if eqIgnoreCase tag "body" then some (some node.id)
      else findBodyKids (findBodyNodeId arena fuel) arena node.children
    | _ => findBodyKids (findBodyNodeId arena fuel) arena node.children

/-- `LayoutEngine::layout` (layout/layout.rs lines 89-112): pick the layout
root (`<body>` if found, else the given root), then run the block/inline walk
from a zeroed flow cursor. The result pairs the produced boxes with the arena
the walk ends with. A missing layout root yields an empty box list. -/
def layoutRun (pi : String → StyleMap) (vw vh : ℚ) (ss : Option Stylesheet)
    (fuel : Nat) (dom : DOMNode) (arena : Arena) : Option (List LayoutBox × Arena) :=
  match findBodyNodeId arena fuel dom with
  | none => none
  | some found =>
    let layout_root_id := found.getD dom.id
    match arena.getNode layout_root_id with
    | none => some ([], arena)
    | some layout_root =>
      match layoutNode pi vw vh ss fuel layout_root
          { arena := arena, boxes := [], x := 0, y := 0, lineHeight := 0, inlineCtx := false } with
      | some st => some (st.boxes, st.arena)
      | none => none

/-- The box list of a completed layout pass. -/
def layoutBoxes (pi : String → StyleMap) (vw vh : ℚ) (ss : Option Stylesheet)
    (fuel : Nat) (dom : DOMNode) (arena : Arena) : Option (List LayoutBox) :=
  (layoutRun pi vw vh ss fuel dom arena).map (fun r => r.1)

/-! ## DOM mutation operations (dom/node.rs, ffi/functions/dom_api.rs).
Node ids are produced by `NODE_ID_COUNTER.fetch_add(1).to_string()`; the
counter is threaded explicitly and `Nat.repr` models `u32::to_string`. -/

/-- `Vec::insert(idx, v)` as used by `dom_insert_before` (always with `idx ≤ len`). -/
def insertAt : List String → Nat → String → List String
  | l, 0, v => v :: l
  | [], _ + 1, v => [v]
  | h :: t, i + 1, v => h :: insertAt t i v

/-- `Vec::remove(idx)` as used by `remove_child` (always with `idx < len`). -/
def removeAt : List String → Nat → List String
  | [], _ => []
  | _ :: t, 0 => t
  | h :: t, i + 1 => h :: removeAt t i

/-- In-place overwrite `children[pos] = v` as used by `dom_replace_child`. -/
def setAt : List String → Nat → String → List String
  | [], _, _ => []
  | _ :: t, 0, v => v :: t
  | h :: t, i + 1, v => h :: setAt t i v

/-- `iter().position(|cid| cid == x)`. -/
def firstIdxOf : List String → String → Option Nat
  | [], _ => none
  | h :: t, x => if h = x then some 0 else (firstIdxOf t x).map (fun i => i + 1)

/-- `DOMNode::add_child` (dom/node.rs lines 835-840), invoked through the arena
on parent id `pid` (spec section 4.1 `append_child(parent_id, child_id)`): push
the child id onto the parent's list unconditionally, then set the child's
parent pointer when the child is present in the arena. An absent parent makes
the whole call a no-op (there is no parent node to run the method on). -/
def appendChild (a : Arena) (pid cid : String) : Arena :=
  match a.getNode pid with
  | none => a
  | some p =>
    let a1 := updateA a pid { p with children := p.children ++ [cid] }
    match a1.getNode cid with
    | none => a1
    | some c => updateA a1 cid { c with parent := some pid }

/-- `DOMNode::remove_child` (dom/node.rs lines 846-856) on parent id `pid`:
drop the first occurrence of `cid` from the parent's list and clear the
child's parent pointer; no-op when `cid` is not among the children. -/
def removeChild (a : Arena) (pid cid : String) : Arena :=
  match a.getNode pid with
  | none => a
  | some p =>
    match firstIdxOf p.children cid with
    | none => a
    | some i =>
      let a1 := updateA a pid { p with children := removeAt p.children i }
      match a1.getNode cid with
      | none => a1
      | some c => updateA a1 cid { c with parent := none }

/-- `dom_insert_before` (ffi/functions/dom_api.rs lines 129-149): insert before
the reference child, or append when the reference is not found; then set the
new node's parent pointer when it exists. -/
def insertBefore (a : Arena) (pid nid rid : String) : Arena :=
  match a.getNode pid with
  | none => a
  | some p =>
    let newChildren :=
      match firstIdxOf p.children rid with
      | some idx => insertAt p.children idx nid
      | none => p.children ++ [nid]
    let a1 := updateA a pid { p with children := newChildren }
    match a1.getNode nid with
    | none => a1
    | some nn => updateA a1 nid { nn with parent := some pid }

/-- `dom_replace_child` (ffi/functions/dom_api.rs lines 151-177): overwrite the
old child's slot, set the new node's parent, clear the old node's parent;
no-op when the old id is not among the children. -/
def replaceChild (a : Arena) (pid nid oid : String) : Arena :=
  match a.getNode pid with
  | none => a
  | some p =>
    match firstIdxOf p.children oid with
    | none => a
    | some pos =>
      let a1 := updateA a pid { p with children := setAt p.children pos nid }
      let a2 :=
        match a1.getNode nid with
        | none => a1
        | some nn => updateA a1 nid { nn with parent := some pid }
      match a2.getNode oid with
      | none => a2
      | some oldn => updateA a2 oid { oldn with parent := none }

/-- `dom_remove_node` (ffi/functions/dom_api.rs lines 206-223): remove the id
from its parent's child list (`retain`, all occurrences) and clear the node's
parent pointer. -/
def removeNode (a : Arena) (id : String) : Arena :=
  match a.getNode id with
  | none => a
  | some n =>
    let a1 :=
      match n.parent with
      | some pid =>
        match a.getNode pid with
        | some p => updateA a pid { p with children := p.children.filter (fun cid => cid ≠ id) }
        | none => a
      | none => a
    match a1.getNode id with
    | none => a1
    | some m => updateA a1 id { m with parent := none }

/-- Child-cloning fold of `DOMNode::deep_clone` (dom/node.rs lines 1037-1046):
each present child is cloned recursively (`f`), the clone is added to the
arena, and its fresh id collected; absent child ids are skipped. -/
def deepCloneKids (f : DOMNode → Arena × Nat → Option (DOMNode × Arena × Nat)) :
    List String → Arena × Nat → Option (List String × Arena × Nat)
  | [], s => some ([], s)
  | cid :: rest, (a, ctr) =>
    match a.getNode cid with
    | none => deepCloneKids f rest (a, ctr)
    | some child =>
      match f child (a, ctr) with
      | none => none
      | some (childClone, a1, ctr1) =>
        let a2 := updateA a1 childClone.id childClone
        match deepCloneKids f rest (a2, ctr1) with
        | none => none
        | some (ids, s) => some (childClone.id :: ids, s)

/-- One level of `DOMNode::deep_clone` (dom/node.rs lines 1032-1049): take a
fresh id from the counter, clear parent and event listeners, clone the
children recursively; attributes, styles and text are kept by `clone()`. -/
def deepCloneStep (f : DOMNode → Arena × Nat → Option (DOMNode × Arena × Nat))
    (n : DOMNode) : Arena × Nat → Option (DOMNode × Arena × Nat) :=
  fun s =>
    match deepCloneKids f n.children (s.1, s.2 + 1) with
    | none => none
    | some (ids, a1, ctr1) =>
      let clone : DOMNode :=
        { n with id := Nat.repr s.2, parent := none, children := ids, event_listeners := [] }
      some (clone, a1, ctr1)

/-- `DOMNode::deep_clone` with fuel (the recursion follows arena lookups). -/
def deepClone : Nat → DOMNode → Arena × Nat → Option (DOMNode × Arena × Nat)
  | 0, _, _ => none
  | fuel + 1, n, s => deepCloneStep (deepClone fuel) n s

/-- `dom_clone_node` with `deep = true` (ffi/functions/dom_api.rs lines
179-204): clone the subtree and add the root clone to the arena. Fuel
exhaustion (the source would still be recursing) leaves the arena unchanged. -/
def cloneNodeDeep (fuel : Nat) (a : Arena) (ctr : Nat) (id : String) : Arena × Nat :=
  match a.getNode id with
  | none => (a, ctr)
  | some n =>
    match deepClone fuel n (a, ctr) with
    | none => (a, ctr)
    | some (c, a1, ctr1) => (updateA a1 c.id c, ctr1)

/-- The structural DOM mutations of spec section 4.1 gathered as one operation
type: append/add_child, insert_before, replace_child, remove (both the node
detach and the child removal entry points) and deep_clone. -/
inductive DomOp where
  | append (pid cid : String)
  | insertB (pid nid rid : String)
  | replace (pid nid oid : String)
  | removeN (id : String)
  | removeC (pid cid : String)
  | cloneDeep (fuel : Nat) (id : String)
deriving DecidableEq, Repr

/-- Interpret one structural mutation on the arena (the id counter is threaded
for `deep_clone`; the other operations allocate no ids). -/
def applyDomOp : DomOp → Arena × Nat → Arena × Nat
  | .append pid cid, (a, ctr) => (appendChild a pid cid, ctr)
  | .insertB pid nid rid, (a, ctr) => (insertBefore a pid nid rid, ctr)
  | .replace pid nid oid, (a, ctr) => (replaceChild a pid nid oid, ctr)
  | .removeN id, (a, ctr) => (removeNode a id, ctr)
  | .removeC pid cid, (a, ctr) => (removeChild a pid cid, ctr)
  | .cloneDeep fuel id, (a, ctr) => cloneNodeDeep fuel a ctr id

/-- The bidirectional link invariant (spec section 3): every arena node whose
parent pointer is present references an arena node whose child list contains
the referring node's id. -/
def ParentOK (a : Arena) : Prop :=
  ∀ id n pid, a id = some n → n.parent = some pid →
    ∃ p, a pid = some p ∧ id ∈ p.children

/-- Freshness of the id counter: ids it will emit are unused in the arena.
The source maintains this globally: every id ever inserted came from the same
monotonically increasing `NODE_ID_COUNTER`. -/
def FreshCtr (a : Arena) (ctr : Nat) : Prop :=
  ∀ m, ctr ≤ m → a (Nat.repr m) = none

/-! ## Depth measure and concrete inputs used by the verification -/

/-- Bounded-depth predicate for the arena-linked tree below a node: `d` levels
of recursion suffice (missing child ids cost nothing, the walks skip them). -/
def nodeDepthLE (a : Arena) : Nat → DOMNode → Bool
  | 0, _ => false
  | d + 1, node =>
    node.children.all (fun cid =>
      match a cid with
      | none => true
      | some c => nodeDepthLE a d c)

/-- Arena-wide depth bound: every node stored in the arena is depth-bounded. -/
def DepthOK (a : Arena) (d : Nat) : Prop :=
  ∀ id n, a id = some n → nodeDepthLE a d n = true

/-- Closed instantiation of the external inline-style parser; no node in the
concrete inputs below carries a `style` attribute, so its value is irrelevant. -/
def trivialPi : String → StyleMap := fun _ => StyleMap.default

/-- Element node builder for the concrete test trees (no attributes). -/
def mkElem (id tag : String) (children : List String) (parent : Option String) : DOMNode :=
  { id := id, node_type := .Element tag, children := children, parent := parent,
    text_content := "", attributes := [], styles := StyleMap.default, event_listeners := [] }

/-- Text node builder for the concrete test trees. -/
def mkText (id text : String) (parent : Option String) : DOMNode :=
  { id := id, node_type := .Text, children := [], parent := parent,
    text_content := text, attributes := [], styles := StyleMap.default, event_listeners := [] }

/-- Root of the `<body><h1>Title</h1><p>Hello</p></body>` document. -/
def c1Root : DOMNode :=
  { id := "0", node_type := .Document, children := ["1"], parent := none,
    text_content := "", attributes := [], styles := StyleMap.default, event_listeners := [] }

/-- Arena of the `<body><h1>Title</h1><p>Hello</p></body>` document. -/
def c1Arena : Arena := fun id =>
  if id = "0" then some c1Root
  else if id = "1" then some (mkElem "1" "body" ["2", "4"] (some "0"))
  else if id = "2" then some (mkElem "2" "h1" ["3"] (some "1"))
  else if id = "3" then some (mkText "3" "Title" (some "2"))
  else if id = "4" then some (mkElem "4" "p" ["5"] (some "1"))
  else if id = "5" then some (mkText "5" "Hello" (some "4"))
  else none

/-- A bare `<span>Hello</span>` element with default styles. -/
def c2Span : DOMNode := mkElem "s" "span" ["t"] none

/-- Arena of the bare span document. -/
def c2Arena : Arena := fun id =>
  if id = "s" then some c2Span
  else if id = "t" then some (mkText "t" "Hello" (some "s"))
  else none

/-- A one-rule stylesheet: `span { display: inline }`. -/
def c2Sheet : Stylesheet :=
  { rules := [{ selector := "span", declarations := [("display", "inline")], specificity := 1 }] }

/-- Zeroed flow state over the span arena. -/
def c2State : LoState :=
  { arena := c2Arena, boxes := [], x := 0, y := 0, lineHeight := 0, inlineCtx := false }

/-- A document consisting of one childless Document node. -/
def c7Doc : DOMNode :=
  { id := "d", node_type := .Document, children := [], parent := none,
    text_content := "", attributes := [], styles := StyleMap.default, event_listeners := [] }

/-- Arena of the single-Document tree. -/
def c7Arena : Arena := fun id => if id = "d" then some c7Doc else none

/-- A one-node arena: a childless div stored under id "1". -/
def c4Arena : Arena := fun id => if id = "1" then some (mkElem "1" "div" [] none) else none

/-- The empty arena. -/
def emptyArena : Arena := fun _ => none

/-- A `<div id="d">` element (attribute `id`, value `d`). -/
def c6Div : DOMNode :=
  { id := "10", node_type := .Element "div", children := [], parent := none,
    text_content := "", attributes := [("id", "d")], styles := StyleMap.default,
    event_listeners := [] }

/-! ## Helper lemmas: arena updates, list surgery, decimal ids -/

theorem updateA_eq (a : Arena) (k : String) (n : DOMNode) : updateA a k n k = some n := by
  simp [updateA]

theorem updateA_ne (a : Arena) (k : String) (n : DOMNode) {x : String} (h : x ≠ k) :
    updateA a k n x = a x := by
  simp [updateA, h]

theorem mem_insertAt_self : ∀ (l : List String) (i : Nat) (v : String), v ∈ insertAt l i v := by
  intro l
  induction l with
  | nil => intro i v; cases i <;> simp [insertAt]
  | cons h t ih =>
    intro i v
    cases i with
    | zero => simp [insertAt]
    | succ j => simp only [insertAt, List.mem_cons]; exact Or.inr (ih j v)

theorem mem_insertAt_of_mem {x : String} :
    ∀ {l : List String} (i : Nat) (v : String), x ∈ l → x ∈ insertAt l i v := by
  intro l
  induction l with
  | nil => intro i v hx; cases hx
  | cons h t ih =>
    intro i v hx
    cases i with
    | zero => exact List.mem_cons_of_mem v hx
    | succ j =>
      simp only [insertAt]
      rcases List.mem_cons.mp hx with h1 | h2
      · exact List.mem_cons.mpr (Or.inl h1)
      · exact List.mem_cons.mpr (Or.inr (ih j v h2))

theorem firstIdxOf_cons_pos {h cid : String} {t : List String} (hh : h = cid) :
    firstIdxOf (h :: t) cid = some 0 := by
  simp only [firstIdxOf, if_pos hh]

theorem firstIdxOf_cons_neg {h cid : String} {t : List String} (hh : ¬(h = cid)) :
    firstIdxOf (h :: t) cid = (firstIdxOf t cid).map (fun i => i + 1) := by
  simp only [firstIdxOf, if_neg hh]

theorem mem_removeAt {x cid : String} :
    ∀ {l : List String} {i : Nat}, firstIdxOf l cid = some i → x ∈ l → x ≠ cid →
      x ∈ removeAt l i := by
  intro l
  induction l with
  | nil => intro i hidx hx _; cases hx
  | cons h t ih =>
    intro i hidx hx hne
    by_cases hh : h = cid
    · rw [firstIdxOf_cons_pos hh] at hidx
      injection hidx with hi
      subst hi
      show x ∈ t
      rcases List.mem_cons.mp hx with h1 | h2
      · exact absurd (h1.trans hh) hne
      · exact h2
    · rw [firstIdxOf_cons_neg hh] at hidx
      cases hj : firstIdxOf t cid with
      | none => rw [hj] at hidx; cases hidx
      | some j =>
        rw [hj] at hidx
        injection hidx with hi
        subst hi
        show x ∈ h :: removeAt t j
        rcases List.mem_cons.mp hx with h1 | h2
        · exact List.mem_cons.mpr (Or.inl h1)
        · exact List.mem_cons.mpr (Or.inr (ih hj h2 hne))

theorem mem_setAt_self {oid : String} :
    ∀ {l : List String} {i : Nat} (v : String), firstIdxOf l oid = some i →
      v ∈ setAt l i v := by
  intro l
  induction l with
  | nil => intro i v hidx; cases hidx
  | cons h t ih =>
    intro i v hidx
    by_cases hh : h = oid
    · rw [firstIdxOf_cons_pos hh] at hidx
      injection hidx with hi
      subst hi
      show v ∈ v :: t
      exact List.mem_cons_self v t
    · rw [firstIdxOf_cons_neg hh] at hidx
      cases hj : firstIdxOf t oid with
      | none => rw [hj] at hidx; cases hidx
      | some j =>
        rw [hj] at hidx
        injection hidx with hi
        subst hi
        show v ∈ h :: setAt t j v
        exact List.mem_cons.mpr (Or.inr (ih v hj))

theorem mem_setAt_of_ne {x oid : String} :
    ∀ {l : List String} {i : Nat} (v : String), firstIdxOf l oid = some i →
      x ∈ l → x ≠ oid → x ∈ setAt l i v := by
  intro l
  induction l with
  | nil => intro i v hidx hx _; cases hx
  | cons h t ih =>
    intro i v hidx hx hne
    by_cases hh : h = oid
    · rw [firstIdxOf_cons_pos hh] at hidx
      injection hidx with hi
      subst hi
      show x ∈ v :: t
      rcases List.mem_cons.mp hx with h1 | h2
      · exact absurd (h1.trans hh) hne
      · exact List.mem_cons.mpr (Or.inr h2)
    · rw [firstIdxOf_cons_neg hh] at hidx
      cases hj : firstIdxOf t oid with
      | none => rw [hj] at hidx; cases hidx
      | some j =>
        rw [hj] at hidx
        injection hidx with hi
        subst hi
        show x ∈ h :: setAt t j v
        rcases List.mem_cons.mp hx with h1 | h2
        · exact List.mem_cons.mpr (Or.inl h1)
        · exact List.mem_cons.mpr (Or.inr (ih v hj h2 hne))

theorem decimal_digitChar_val {d : Nat} (h : d < 10) : (Nat.digitChar d).toNat - 48 = d := by
  interval_cases d <;> decide

theorem toDigitsCore_append (b : Nat) :
    ∀ (fuel n : Nat) (acc : List Char),
      Nat.toDigitsCore b fuel n acc = Nat.toDigitsCore b fuel n [] ++ acc := by
  intro fuel
  induction fuel with
  | zero => intro n acc; simp [Nat.toDigitsCore]
  | succ f ih =>
    intro n acc
    simp only [Nat.toDigitsCore]
    by_cases h : n / b = 0
    · simp [h]
    · simp only [if_neg h]
      rw [ih (n / b) [Nat.digitChar (n % b)], ih (n / b) (Nat.digitChar (n % b) :: acc)]
      simp

theorem toDigitsCore_eval :
    ∀ (fuel n : Nat), n < fuel →
      (Nat.toDigitsCore 10 fuel n []).foldl (fun acc c => acc * 10 + (c.toNat - 48)) 0 = n := by
  intro fuel
  induction fuel with
  | zero => intro n h; omega
  | succ f ih =>
    intro n hn
    simp only [Nat.toDigitsCore]
    by_cases h : n / 10 = 0
    · simp only [if_pos h, List.foldl_cons, List.foldl_nil, Nat.zero_mul, Nat.zero_add]
      have hlt : n % 10 < 10 := Nat.mod_lt _ (by omega)
      rw [decimal_digitChar_val hlt]
      omega
    · simp only [if_neg h]
      rw [toDigitsCore_append]
      rw [List.foldl_append]
      have hdiv_pos : 0 < n := by
        by_contra hz
        push_neg at hz
        interval_cases n
        simp at h
      have hdivlt : n / 10 < n := Nat.div_lt_self hdiv_pos (by omega)
      have : n / 10 < f := by omega
      rw [ih (n / 10) this]
      simp only [List.foldl_cons, List.foldl_nil]
      have hlt : n % 10 < 10 := Nat.mod_lt _ (by omega)
      rw [decimal_digitChar_val hlt]
      omega

theorem natRepr_injective : ∀ {m k : Nat}, Nat.repr m = Nat.repr k → m = k := by
  intro m k h
  have hdata : Nat.toDigits 10 m = Nat.toDigits 10 k := by
    have := congrArg String.data h
    simpa [Nat.repr, List.asString] using this
  have hm := toDigitsCore_eval (m + 1) m (Nat.lt_succ_self m)
  have hk := toDigitsCore_eval (k + 1) k (Nat.lt_succ_self k)
  simp only [Nat.toDigits] at hdata
  rw [hdata] at hm
  rw [hk] at hm
  exact hm.symm

/-! ## Parent/child consistency of the structural mutations -/

/-- Weakened link invariant: parent/child consistency for every node except `bad`
(used mid-mutation, before the excluded node's parent pointer is cleared). -/
def ParentOKx (a : Arena) (bad : String) : Prop :=
  ∀ id n pid, id ≠ bad → a id = some n → n.parent = some pid →
    ∃ p, a pid = some p ∧ id ∈ p.children

theorem parentOKx_of_parentOK {a : Arena} {bad : String} (h : ParentOK a) : ParentOKx a bad :=
  fun id n pid _ h1 h2 => h id n pid h1 h2

theorem parentOK_of_parentOKx_none {a : Arena} {bad : String}
    (h : ParentOKx a bad) (hb : a bad = none) : ParentOK a := by
  intro id n pid h1 h2
  by_cases hid : id = bad
  · subst hid; rw [hb] at h1; cases h1
  · exact h id n pid hid h1 h2

theorem parentOK_update_children {a : Arena} {pid : String} {p : DOMNode} (newch : List String)
    (hPO : ParentOK a) (hA : a pid = some p)
    (hsup : ∀ x, x ∈ p.children → x ∈ newch) :
    ParentOK (updateA a pid { p with children := newch }) := by
  intro id n q h1 h2
  by_cases hid : id = pid
  · subst hid
    rw [updateA_eq] at h1
    injection h1 with hn
    subst hn
    obtain ⟨pp, hpp, hmem⟩ := hPO id p q hA h2
    by_cases hq : q = id
    · subst hq
      have hppp : pp = p := by rw [hA] at hpp; injection hpp with h; exact h.symm
      subst hppp
      exact ⟨_, updateA_eq _ _ _, hsup _ hmem⟩
    · exact ⟨pp, by rw [updateA_ne _ _ _ hq]; exact hpp, hmem⟩
  · rw [updateA_ne _ _ _ hid] at h1
    obtain ⟨pp, hpp, hmem⟩ := hPO id n q h1 h2
    by_cases hq : q = pid
    · subst hq
      have hppp : pp = p := by rw [hA] at hpp; injection hpp with h; exact h.symm
      subst hppp
      exact ⟨_, updateA_eq _ _ _, hsup _ hmem⟩
    · exact ⟨pp, by rw [updateA_ne _ _ _ hq]; exact hpp, hmem⟩

theorem parentOKx_update_children {a : Arena} {pid : String} {p : DOMNode}
    (newch : List String) (bad : String)
    (hPO : ParentOK a) (hA : a pid = some p)
    (hsup : ∀ x, x ∈ p.children → x ≠ bad → x ∈ newch) :
    ParentOKx (updateA a pid { p with children := newch }) bad := by
  intro id n q hbad h1 h2
  by_cases hid : id = pid
  · subst hid
    rw [updateA_eq] at h1
    injection h1 with hn
    subst hn
    obtain ⟨pp, hpp, hmem⟩ := hPO id p q hA h2
    by_cases hq : q = id
    · subst hq
      have hppp : pp = p := by rw [hA] at hpp; injection hpp with h; exact h.symm
      subst hppp
      exact ⟨_, updateA_eq _ _ _, hsup _ hmem hbad⟩
    · exact ⟨pp, by rw [updateA_ne _ _ _ hq]; exact hpp, hmem⟩
  · rw [updateA_ne _ _ _ hid] at h1
    obtain ⟨pp, hpp, hmem⟩ := hPO id n q h1 h2
    by_cases hq : q = pid
    · subst hq
      have hppp : pp = p := by rw [hA] at hpp; injection hpp with h; exact h.symm
      subst hppp
      exact ⟨_, updateA_eq _ _ _, hsup _ hmem hbad⟩
    · exact ⟨pp, by rw [updateA_ne _ _ _ hq]; exact hpp, hmem⟩

theorem parentOK_set_parent {a : Arena} {cid pid : String} {c pn : DOMNode}
    (hPO : ParentOK a) (hC : a cid = some c)
    (hP : a pid = some pn) (hmem : cid ∈ pn.children) :
    ParentOK (updateA a cid { c with parent := some pid }) := by
  intro id n q h1 h2
  by_cases hid : id = cid
  · subst hid
    rw [updateA_eq] at h1
    injection h1 with hn
    subst hn
    have hq : pid = q := by
      have h2' : some pid = some q := h2
      injection h2'
    subst hq
    by_cases hq2 : pid = id
    · refine ⟨_, by rw [hq2]; exact updateA_eq _ _ _, ?_⟩
      have hpc : pn = c := by
        have hP' := hP
        rw [hq2] at hP'
        rw [hC] at hP'
        injection hP' with h
        exact h.symm
      subst hpc
      exact hmem
    · refine ⟨pn, ?_, hmem⟩
      rw [updateA_ne _ _ _ hq2]
      exact hP
  · rw [updateA_ne _ _ _ hid] at h1
    obtain ⟨pp, hpp, hmem2⟩ := hPO id n q h1 h2
    by_cases hq : q = cid
    · subst hq
      have hpc : pp = c := by rw [hC] at hpp; injection hpp with h; exact h.symm
      subst hpc
      exact ⟨_, updateA_eq _ _ _, hmem2⟩
    · exact ⟨pp, by rw [updateA_ne _ _ _ hq]; exact hpp, hmem2⟩

theorem parentOKx_set_parent {a : Arena} {cid pid bad : String} {c pn : DOMNode}
    (hPO : ParentOKx a bad) (hC : a cid = some c)
    (hP : a pid = some pn) (hmem : cid ∈ pn.children) :
    ParentOKx (updateA a cid { c with parent := some pid }) bad := by
  intro id n q hbad h1 h2
  by_cases hid : id = cid
  · subst hid
    rw [updateA_eq] at h1
    injection h1 with hn
    subst hn
    have hq : pid = q := by
      have h2' : some pid = some q := h2
      injection h2'
    subst hq
    by_cases hq2 : pid = id
    · refine ⟨_, by rw [hq2]; exact updateA_eq _ _ _, ?_⟩
      have hpc : pn = c := by
        have hP' := hP
        rw [hq2] at hP'
        rw [hC] at hP'
        injection hP' with h
        exact h.symm
      subst hpc
      exact hmem
    · refine ⟨pn, ?_, hmem⟩
      rw [updateA_ne _ _ _ hq2]
      exact hP
  · rw [updateA_ne _ _ _ hid] at h1
    obtain ⟨pp, hpp, hmem2⟩ := hPO id n q hbad h1 h2
    by_cases hq : q = cid
    · subst hq
      have hpc : pp = c := by rw [hC] at hpp; injection hpp with h; exact h.symm
      subst hpc
      exact ⟨_, updateA_eq _ _ _, hmem2⟩
    · exact ⟨pp, by rw [updateA_ne _ _ _ hq]; exact hpp, hmem2⟩

theorem parentOK_clear_parent {a : Arena} {bad : String} {c : DOMNode}
    (hPO : ParentOKx a bad) (hC : a bad = some c) :
    ParentOK (updateA a bad { c with parent := none }) := by
  intro id n q h1 h2
  by_cases hid : id = bad
  · subst hid
    rw [updateA_eq] at h1
    injection h1 with hn
    subst hn
    exact absurd (h2 : (none : Option String) = some q) (by simp)
  · rw [updateA_ne _ _ _ hid] at h1
    obtain ⟨pp, hpp, hmem⟩ := hPO id n q hid h1 h2
    by_cases hq : q = bad
    · subst hq
      have hpc : pp = c := by rw [hC] at hpp; injection hpp with h; exact h.symm
      subst hpc
      exact ⟨_, updateA_eq _ _ _, hmem⟩
    · exact ⟨pp, by rw [updateA_ne _ _ _ hq]; exact hpp, hmem⟩

theorem parentOK_insert_fresh {a : Arena} {k : String} {c : DOMNode}
    (hPO : ParentOK a) (hk : a k = none) (hparent : c.parent = none) :
    ParentOK (updateA a k c) := by
  intro id n q h1 h2
  by_cases hid : id = k
  · subst hid
    rw [updateA_eq] at h1
    injection h1 with hn
    subst hn
    rw [hparent] at h2
    cases h2
  · rw [updateA_ne _ _ _ hid] at h1
    obtain ⟨pp, hpp, hmem⟩ := hPO id n q h1 h2
    by_cases hq : q = k
    · subst hq; rw [hk] at hpp; cases hpp
    · exact ⟨pp, by rw [updateA_ne _ _ _ hq]; exact hpp, hmem⟩

theorem appendChild_parentOK (a : Arena) (pid cid : String) (hPO : ParentOK a) :
    ParentOK (appendChild a pid cid) := by
  cases hA : a pid with
  | none =>
    simp only [appendChild, Arena.getNode, hA]
    exact hPO
  | some p =>
    have hPO1 : ParentOK (updateA a pid { p with children := p.children ++ [cid] }) :=
      parentOK_update_children _ hPO hA (fun x hx => List.mem_append_left _ hx)
    cases hC : updateA a pid { p with children := p.children ++ [cid] } cid with
    | none =>
      simp only [appendChild, Arena.getNode, hA, hC]
      exact hPO1
    | some c =>
      simp only [appendChild, Arena.getNode, hA, hC]
      exact parentOK_set_parent hPO1 hC (updateA_eq _ _ _)
        (List.mem_append_right _ (List.mem_singleton.mpr rfl))

theorem insertBefore_parentOK (a : Arena) (pid nid rid : String) (hPO : ParentOK a) :
    ParentOK (insertBefore a pid nid rid) := by
  cases hA : a pid with
  | none =>
    simp only [insertBefore, Arena.getNode, hA]
    exact hPO
  | some p =>
    cases hIdx : firstIdxOf p.children rid with
    | some idx =>
      have hPO1 : ParentOK (updateA a pid { p with children := insertAt p.children idx nid }) :=
        parentOK_update_children _ hPO hA (fun x hx => mem_insertAt_of_mem idx nid hx)
      cases hC : updateA a pid { p with children := insertAt p.children idx nid } nid with
      | none =>
        simp only [insertBefore, Arena.getNode, hA, hIdx, hC]
        exact hPO1
      | some nn =>
        simp only [insertBefore, Arena.getNode, hA, hIdx, hC]
        exact parentOK_set_parent hPO1 hC (updateA_eq _ _ _) (mem_insertAt_self _ _ _)
    | none =>
      have hPO1 : ParentOK (updateA a pid { p with children := p.children ++ [nid] }) :=
        parentOK_update_children _ hPO hA (fun x hx => List.mem_append_left _ hx)
      cases hC : updateA a pid { p with children := p.children ++ [nid] } nid with
      | none =>
        simp only [insertBefore, Arena.getNode, hA, hIdx, hC]
        exact hPO1
      | some nn =>
        simp only [insertBefore, Arena.getNode, hA, hIdx, hC]
        exact parentOK_set_parent hPO1 hC (updateA_eq _ _ _)
          (List.mem_append_right _ (List.mem_singleton.mpr rfl))

theorem replaceChild_parentOK (a : Arena) (pid nid oid : String) (hPO : ParentOK a) :
    ParentOK (replaceChild a pid nid oid) := by
  cases hA : a pid with
  | none =>
    simp only [replaceChild, Arena.getNode, hA]
    exact hPO
  | some p =>
    cases hIdx : firstIdxOf p.children oid with
    | none =>
      simp only [replaceChild, Arena.getNode, hA, hIdx]
      exact hPO
    | some pos =>
      have hx1 : ParentOKx (updateA a pid { p with children := setAt p.children pos nid }) oid :=
        parentOKx_update_children _ oid hPO hA
          (fun x hx hne => mem_setAt_of_ne nid hIdx hx hne)
      cases hN : updateA a pid { p with children := setAt p.children pos nid } nid with
      | none =>
        cases hO : updateA a pid { p with children := setAt p.children pos nid } oid with
        | none =>
          simp only [replaceChild, Arena.getNode, hA, hIdx, hN, hO]
          exact parentOK_of_parentOKx_none hx1 hO
        | some oldn =>
          simp only [replaceChild, Arena.getNode, hA, hIdx, hN, hO]
          exact parentOK_clear_parent hx1 hO
      | some nn =>
        have hx2 : ParentOKx (updateA (updateA a pid
            { p with children := setAt p.children pos nid }) nid
            { nn with parent := some pid }) oid :=
          parentOKx_set_parent hx1 hN (updateA_eq _ _ _) (mem_setAt_self nid hIdx)
        cases hO : updateA (updateA a pid { p with children := setAt p.children pos nid }) nid
            { nn with parent := some pid } oid with
        | none =>
          simp only [replaceChild, Arena.getNode, hA, hIdx, hN, hO]
          exact parentOK_of_parentOKx_none hx2 hO
        | some oldn =>
          simp only [replaceChild, Arena.getNode, hA, hIdx, hN, hO]
          exact parentOK_clear_parent hx2 hO

theorem removeChild_parentOK (a : Arena) (pid cid : String) (hPO : ParentOK a) :
    ParentOK (removeChild a pid cid) := by
  cases hA : a pid with
  | none =>
    simp only [removeChild, Arena.getNode, hA]
    exact hPO
  | some p =>
    cases hIdx : firstIdxOf p.children cid with
    | none =>
      simp only [removeChild, Arena.getNode, hA, hIdx]
      exact hPO
    | some i =>
      have hx1 : ParentOKx (updateA a pid { p with children := removeAt p.children i }) cid :=
        parentOKx_update_children _ cid hPO hA
          (fun x hx hne => mem_removeAt hIdx hx hne)
      cases hC : updateA a pid { p with children := removeAt p.children i } cid with
      | none =>
        simp only [removeChild, Arena.getNode, hA, hIdx, hC]
        exact parentOK_of_parentOKx_none hx1 hC
      | some c =>
        simp only [removeChild, Arena.getNode, hA, hIdx, hC]
        exact parentOK_clear_parent hx1 hC

theorem removeNode_parentOK (a : Arena) (id : String) (hPO : ParentOK a) :
    ParentOK (removeNode a id) := by
  cases hA : a id with
  | none =>
    simp only [removeNode, Arena.getNode, hA]
    exact hPO
  | some n =>
    cases hp : n.parent with
    | none =>
      simp only [removeNode, Arena.getNode, hA, hp]
      exact parentOK_clear_parent (parentOKx_of_parentOK hPO) hA
    | some pid =>
      cases hpp : a pid with
      | none =>
        simp only [removeNode, Arena.getNode, hA, hp, hpp]
        exact parentOK_clear_parent (parentOKx_of_parentOK hPO) hA
      | some p =>
        have hx1 : ParentOKx (updateA a pid
            { p with children := p.children.filter (fun cid => cid ≠ id) }) id :=
          parentOKx_update_children _ id hPO hpp
            (fun x hx hne => List.mem_filter.mpr ⟨hx, by simpa using hne⟩)
        cases hA1 : updateA a pid
            { p with children := p.children.filter (fun cid => cid ≠ id) } id with
        | none =>
          simp only [removeNode, Arena.getNode, hA, hp, hpp, hA1]
          exact parentOK_of_parentOKx_none hx1 hA1
        | some m =>
          simp only [removeNode, Arena.getNode, hA, hp, hpp, hA1]
          exact parentOK_clear_parent hx1 hA1

theorem freshCtr_mono {a : Arena} {ctr k : Nat} (h : FreshCtr a ctr) (hk : ctr ≤ k) :
    FreshCtr a k :=
  fun m hm => h m (le_trans hk hm)

/-- Specification of the child-cloning fold, given the specification of the
one-node clone at the same fuel: the counter grows, freshness and the link
invariant are kept, and ids below the starting counter are untouched. -/
theorem deepCloneKids_spec_of (f : Nat)
    (hDC : ∀ (n : DOMNode) (a : Arena) (ctr : Nat) (out : DOMNode × Arena × Nat),
      FreshCtr a ctr → ParentOK a → deepClone f n (a, ctr) = some out →
      out.1.parent = none ∧ out.1.id = Nat.repr ctr ∧ ctr < out.2.2 ∧
        FreshCtr out.2.1 out.2.2 ∧ ParentOK out.2.1 ∧
        (∀ m, m < ctr → out.2.1 (Nat.repr m) = a (Nat.repr m)) ∧
        out.2.1 (Nat.repr ctr) = none) :
    ∀ (ids : List String) (a : Arena) (ctr : Nat) (out : List String × Arena × Nat),
      FreshCtr a ctr → ParentOK a →
      deepCloneKids (deepClone f) ids (a, ctr) = some out →
      ctr ≤ out.2.2 ∧ FreshCtr out.2.1 out.2.2 ∧ ParentOK out.2.1 ∧
        (∀ m, m < ctr → out.2.1 (Nat.repr m) = a (Nat.repr m)) := by
  intro ids
  induction ids with
  | nil =>
    intro a ctr out hF hP h
    simp only [deepCloneKids] at h
    injection h with h
    subst h
    exact ⟨le_refl _, hF, hP, fun m _ => rfl⟩
  | cons cid rest ih =>
    intro a ctr out hF hP h
    simp only [deepCloneKids, Arena.getNode] at h
    cases hC : a cid with
    | none =>
      simp only [hC] at h
      exact ih a ctr out hF hP h
    | some child =>
      simp only [hC] at h
      cases hDc : deepClone f child (a, ctr) with
      | none =>
        simp only [hDc] at h
        exact Option.noConfusion h
      | some cOut =>
        obtain ⟨cc, a1, ctr1⟩ := cOut
        simp only [hDc] at h
        obtain ⟨hccp, hccid, hlt, hF1, hP1, hlow, hself⟩ :=
          hDC child a ctr (cc, a1, ctr1) hF hP hDc
        have hlt' : ctr < ctr1 := hlt
        have hF1' : FreshCtr a1 ctr1 := hF1
        have hlow' : ∀ m, m < ctr → a1 (Nat.repr m) = a (Nat.repr m) := hlow
        have ha1cc : a1 cc.id = none := by rw [hccid]; exact hself
        have hP2 : ParentOK (updateA a1 cc.id cc) :=
          parentOK_insert_fresh hP1 ha1cc hccp
        have hF2 : FreshCtr (updateA a1 cc.id cc) ctr1 := by
          intro m hm
          by_cases hkey : Nat.repr m = cc.id
          · exfalso
            rw [hccid] at hkey
            have := natRepr_injective hkey
            omega
          · rw [updateA_ne _ _ _ hkey]
            exact hF1' m hm
        have hlow2 : ∀ m, m < ctr → updateA a1 cc.id cc (Nat.repr m) = a (Nat.repr m) := by
          intro m hm
          by_cases hkey : Nat.repr m = cc.id
          · exfalso
            rw [hccid] at hkey
            have := natRepr_injective hkey
            omega
          · rw [updateA_ne _ _ _ hkey]
            exact hlow' m hm
        cases hRest : deepCloneKids (deepClone f) rest (updateA a1 cc.id cc, ctr1) with
        | none =>
          simp only [hRest] at h
          exact Option.noConfusion h
        | some restOut =>
          obtain ⟨ids3, a2, ctr2⟩ := restOut
          simp only [hRest] at h
          injection h with h
          subst h
          obtain ⟨hle2, hFr, hPr, hlowr⟩ := ih _ _ _ hF2 hP2 hRest
          have hle2' : ctr1 ≤ ctr2 := hle2
          have hFr' : FreshCtr a2 ctr2 := hFr
          have hPr' : ParentOK a2 := hPr
          have hlowr' : ∀ m, m < ctr1 → a2 (Nat.repr m) = updateA a1 cc.id cc (Nat.repr m) :=
            hlowr
          refine ⟨?_, hFr', hPr', ?_⟩
          · show ctr ≤ ctr2
            omega
          · intro m hm
            show a2 (Nat.repr m) = a (Nat.repr m)
            rw [hlowr' m (by omega)]
            exact hlow2 m hm

/-- Specification of one deep clone: the clone's parent is cleared, its id is
the next counter value, the counter strictly grows, freshness and the link
invariant hold afterwards, and pre-existing decimal ids are untouched. -/
theorem deepClone_spec :
    ∀ (fuel : Nat) (n : DOMNode) (a : Arena) (ctr : Nat) (out : DOMNode × Arena × Nat),
      FreshCtr a ctr → ParentOK a → deepClone fuel n (a, ctr) = some out →
      out.1.parent = none ∧ out.1.id = Nat.repr ctr ∧ ctr < out.2.2 ∧
        FreshCtr out.2.1 out.2.2 ∧ ParentOK out.2.1 ∧
        (∀ m, m < ctr → out.2.1 (Nat.repr m) = a (Nat.repr m)) ∧
        out.2.1 (Nat.repr ctr) = none := by
  intro fuel
  induction fuel with
  | zero =>
    intro n a ctr out _ _ h
    simp only [deepClone] at h
    cases h
  | succ f ihDC =>
    intro n a ctr out hF hP h
    simp only [deepClone, deepCloneStep] at h
    cases hKids : deepCloneKids (deepClone f) n.children (a, ctr + 1) with
    | none =>
      simp only [hKids] at h
      exact Option.noConfusion h
    | some kidsOut =>
      obtain ⟨ids2, a1, ctr1⟩ := kidsOut
      simp only [hKids] at h
      injection h with h
      subst h
      obtain ⟨hle, hF1, hP1, hlow⟩ :=
        deepCloneKids_spec_of f ihDC n.children a (ctr + 1) (ids2, a1, ctr1)
          (freshCtr_mono hF (by omega)) hP hKids
      have hle' : ctr + 1 ≤ ctr1 := hle
      have hF1' : FreshCtr a1 ctr1 := hF1
      have hP1' : ParentOK a1 := hP1
      have hlow' : ∀ m, m < ctr + 1 → a1 (Nat.repr m) = a (Nat.repr m) := hlow
      have hself : a1 (Nat.repr ctr) = none := by
        rw [hlow' ctr (by omega)]
        exact hF ctr (le_refl _)
      refine ⟨rfl, rfl, ?_, hF1', hP1', ?_, hself⟩
      · show ctr < ctr1
        omega
      · intro m hm
        exact hlow' m (by omega)

/-- `dom_clone_node(deep = true)` keeps the link invariant. -/
theorem cloneNodeDeep_parentOK (fuel : Nat) (a : Arena) (ctr : Nat) (id : String)
    (hPO : ParentOK a) (hF : FreshCtr a ctr) :
    ParentOK (cloneNodeDeep fuel a ctr id).1 := by
  cases hA : a id with
  | none =>
    simp only [cloneNodeDeep, Arena.getNode, hA]
    exact hPO
  | some n =>
    cases hDc : deepClone fuel n (a, ctr) with
    | none =>
      simp only [cloneNodeDeep, Arena.getNode, hA, hDc]
      exact hPO
    | some out =>
      obtain ⟨c, a1, ctr1⟩ := out
      simp only [cloneNodeDeep, Arena.getNode, hA, hDc]
      obtain ⟨hcp, hcid, _, _, hP1, _, hself⟩ :=
        deepClone_spec fuel n a ctr (c, a1, ctr1) hF hPO hDc
      have : a1 c.id = none := by rw [hcid]; exact hself
      exact parentOK_insert_fresh hP1 this hcp

/-! ## The layout pass reads but never writes the arena, and it completes on
depth-bounded trees -/

theorem layoutKids_arena (f : DOMNode → LoState → Option LoState)
    (hf : ∀ node st st', f node st = some st' → st'.arena = st.arena) :
    ∀ (ids : List String) (st st' : LoState),
      layoutKids f ids st = some st' → st'.arena = st.arena := by
  intro ids
  induction ids with
  | nil =>
    intro st st' h
    simp only [layoutKids] at h
    injection h with h
    subst h
    rfl
  | cons cid rest ih =>
    intro st st' h
    simp only [layoutKids, Arena.getNode] at h
    cases hC : st.arena cid with
    | none =>
      simp only [hC] at h
      exact ih st st' h
    | some child =>
      simp only [hC] at h
      cases hf1 : f child st with
      | none =>
        simp only [hf1] at h
        exact Option.noConfusion h
      | some st2 =>
        simp only [hf1] at h
        rw [ih st2 st' h, hf _ _ _ hf1]

theorem layoutStep_arena (pi : String → StyleMap) (vw vh : ℚ) (ss : Option Stylesheet)
    (f : DOMNode → LoState → Option LoState)
    (hf : ∀ node st st', f node st = some st' → st'.arena = st.arena) :
    ∀ (node : DOMNode) (st st' : LoState),
      layoutStep pi vw vh ss f node st = some st' → st'.arena = st.arena := by
  intro node st st' h
  cases hnt : node.node_type with
  | Element tag =>
    simp only [layoutStep, hnt] at h
    split at h
    · split at h <;> (have hx := layoutKids_arena f hf _ _ _ h; exact hx)
    · split at h
      · split at h <;> (have hx := layoutKids_arena f hf _ _ _ h; exact hx)
      · have hx := layoutKids_arena f hf _ _ _ h
        exact hx
  | Text =>
    simp only [layoutStep, hnt] at h
    split at h
    · split at h <;> (injection h with h; subst h; rfl)
    · injection h with h
      subst h
      rfl
  | Document =>
    simp only [layoutStep, hnt] at h
    exact layoutKids_arena f hf _ _ _ h

theorem layoutNode_arena (pi : String → StyleMap) (vw vh : ℚ) (ss : Option Stylesheet) :
    ∀ (fuel : Nat) (node : DOMNode) (st st' : LoState),
      layoutNode pi vw vh ss fuel node st = some st' → st'.arena = st.arena := by
  intro fuel
  induction fuel with
  | zero =>
    intro node st st' h
    simp only [layoutNode] at h
    exact Option.noConfusion h
  | succ f ih =>
    intro node st st' h
    simp only [layoutNode] at h
    exact layoutStep_arena pi vw vh ss _ ih node st st' h

theorem layoutNode_total (pi : String → StyleMap) (vw vh : ℚ) (ss : Option Stylesheet) :
    ∀ (fuel : Nat) (a : Arena) (node : DOMNode) (st : LoState),
      st.arena = a → nodeDepthLE a fuel node = true →
      (layoutNode pi vw vh ss fuel node st).isSome = true := by
  intro fuel
  induction fuel with
  | zero =>
    intro a node st _ hd
    simp [nodeDepthLE] at hd
  | succ f ih =>
    intro a node st hst hd
    have hall : ∀ cid ∈ node.children,
        (match a cid with | none => true | some c => nodeDepthLE a f c) = true := by
      simp only [nodeDepthLE, List.all_eq_true] at hd
      exact hd
    have hkids : ∀ (ids : List String),
        (∀ cid ∈ ids, (match a cid with | none => true | some c => nodeDepthLE a f c) = true) →
        ∀ st0 : LoState, st0.arena = a →
        (layoutKids (layoutNode pi vw vh ss f) ids st0).isSome = true := by
      intro ids
      induction ids with
      | nil =>
        intro _ st0 _
        simp [layoutKids]
      | cons cid rest ihk =>
        intro hds st0 hst0
        simp only [layoutKids, Arena.getNode]
        split
        next child hC =>
          have hcd : nodeDepthLE a f child = true := by
            have hx := hds cid (List.mem_cons_self _ _)
            rw [hst0] at hC
            simp only [hC] at hx
            exact hx
          have hsome := ih a child st0 hst0 hcd
          split
          next st2 hL =>
            have hst2 : st2.arena = a := by
              rw [layoutNode_arena pi vw vh ss f child st0 st2 hL, hst0]
            exact ihk (fun c hc => hds c (List.mem_cons_of_mem _ hc)) st2 hst2
          next hL => rw [hL] at hsome; cases hsome
        next hC =>
          exact ihk (fun c hc => hds c (List.mem_cons_of_mem _ hc)) st0 hst0
    cases hnt : node.node_type with
    | Element tag =>
      simp only [layoutNode, layoutStep, hnt]
      split
      · split <;> exact hkids node.children hall _ hst
      · split
        · split <;> exact hkids node.children hall _ hst
        · exact hkids node.children hall _ hst
    | Text =>
      simp only [layoutNode, layoutStep, hnt]
      split <;> simp
    | Document =>
      simp only [layoutNode, layoutStep, hnt]
      exact hkids node.children hall _ hst

theorem findBodyNodeId_total (a : Arena) :
    ∀ (fuel : Nat) (node : DOMNode), nodeDepthLE a fuel node = true →
      (findBodyNodeId a fuel node).isSome = true := by
  intro fuel
  induction fuel with
  | zero =>
    intro node hd
    simp [nodeDepthLE] at hd
  | succ f ih =>
    intro node hd
    have hall : ∀ cid ∈ node.children,
        (match a cid with | none => true | some c => nodeDepthLE a f c) = true := by
      simp only [nodeDepthLE, List.all_eq_true] at hd
      exact hd
    have hkids : ∀ (ids : List String),
        (∀ cid ∈ ids, (match a cid with | none => true | some c => nodeDepthLE a f c) = true) →
        (findBodyKids (findBodyNodeId a f) a ids).isSome = true := by
      intro ids
      induction ids with
      | nil =>
        intro _
        simp [findBodyKids]
      | cons cid rest ihk =>
        intro hds
        simp only [findBodyKids, Arena.getNode]
        split
        next child hC =>
          have hcd : nodeDepthLE a f child = true := by
            have hx := hds cid (List.mem_cons_self _ _)
            simp only [hC] at hx
            exact hx
          have hsome := ih child hcd
          split
          next hFB => rw [hFB] at hsome; cases hsome
          next found hFB => rfl
          next hFB => exact ihk (fun c hc => hds c (List.mem_cons_of_mem _ hc))
        next hC =>
          exact ihk (fun c hc => hds c (List.mem_cons_of_mem _ hc))
    cases hnt : node.node_type with
    | Element tag =>
      simp only [findBodyNodeId, hnt]
      by_cases hb : eqIgnoreCase tag "body" = true
      · simp [hb]
      · simp only [Bool.not_eq_true] at hb
        simp only [hb, Bool.false_eq_true, if_false]
        exact hkids node.children hall
    | Text =>
      simp only [findBodyNodeId, hnt]
      exact hkids node.children hall
    | Document =>
      simp only [findBodyNodeId, hnt]
      exact hkids node.children hall

/-! ## Claim theorems -/

/-- Claim C1 (counterexample): on `<body><h1>Title</h1><p>Hello</p></body>` at
800x600 with default styles, the layout pass emits three non-text (block-path)
boxes - body, h1 and p - not the two the claim states: the body element itself
is laid out as a block (its default display is "block"). -/
theorem c1_counterexample :
    (layoutBoxes trivialPi 800 600 none 10 c1Root c1Arena).map
        (fun bs => (bs.filter (fun b => b.node_type ≠ "text")).map (fun b => b.node_type))
      = some ["body", "h1", "p"] ∧
    (["body", "h1", "p"] : List String) ≠ ["h1", "p"] := by
  constructor
  · with_unfolding_all rfl
  · decide

/-- Claim C1 (amended): the layout of `<body><h1>Title</h1><p>Hello</p></body>`
at 800x600 with default styles produces exactly five boxes - block boxes for
body, h1 and p (in that order), h1 and p each immediately followed by a text
box carrying "Title" and "Hello" - and the p box's y (219.2) is strictly
greater than the h1 box's y plus height (100 + 100). -/
theorem c1_end_to_end_layout :
    (layoutBoxes trivialPi 800 600 none 10 c1Root c1Arena).map
        (fun bs => bs.map (fun b => (b.node_type, b.text_content, b.x, b.y, b.width, b.height)))
      = some [("body", "", 0, 0, 720, 100),
              ("h1", "Title", 0, 100, 720, 100),
              ("text", "Title", 0, 200, 48, 96/5),
              ("p", "Hello", 0, 1096/5, 720, 20),
              ("text", "Hello", 0, 1196/5, 48, 96/5)] ∧
    (1096/5 : ℚ) > 100 + 100 := by
  constructor
  · with_unfolding_all rfl
  · with_unfolding_all decide

/-- Claim C3 (code evaluated at the failing input): `parse_length` resolves
`"50%"` against the viewport *height* whatever the supplied default is, because
its axis test `value.contains("width")` inspects the value string; a width of
`"50%"` at an 800x600 viewport therefore becomes 300 (50% of 600), not the 400
(50% of 800) the claim requires. -/
theorem c3_percent_resolves_against_height :
    parseLength 800 600 "50%" 720 = 300 ∧
    parseLength 800 600 "50%" 20 = 300 ∧
    (calculateBlockDimensions 800 600 { StyleMap.default with width := "50%" } "div").1 = 300 ∧
    (800 : ℚ) * 50 / 100 = 400 ∧
    (300 : ℚ) ≠ 400 := by
  refine ⟨?_, ?_, ?_, ?_, ?_⟩
  · with_unfolding_all rfl
  · with_unfolding_all rfl
  · with_unfolding_all rfl
  · with_unfolding_all decide
  · with_unfolding_all decide

/-- Claim C4 (counterexample): appending the absent child id "99" to the
existing parent "1" is not a no-op - the parent's child list changes from `[]`
to `["99"]` (the push happens before the child lookup). -/
theorem c4_counterexample :
    ((appendChild c4Arena "1" "99") "1").map DOMNode.children = some ["99"] ∧
    (c4Arena "1").map DOMNode.children = some [] ∧
    (some ["99"] : Option (List String)) ≠ some [] := by
  refine ⟨rfl, rfl, by decide⟩

/-- Claim C4 (amended): `append_child` with an absent parent is a no-op and
does not crash; with a present parent and an absent child id, the child id is
still pushed onto the parent's child list (left dangling) and nothing else in
the arena changes - the parent's child list is not left unchanged. -/
theorem c4_append_child_absent (a : Arena) (pid cid : String) :
    (a pid = none → appendChild a pid cid = a) ∧
    (∀ p, a pid = some p → cid ≠ pid → a cid = none →
      appendChild a pid cid = updateA a pid { p with children := p.children ++ [cid] }) := by
  constructor
  · intro h
    simp only [appendChild, Arena.getNode, h]
  · intro p hA hne hc
    have h1 : updateA a pid { p with children := p.children ++ [cid] } cid = none := by
      rw [updateA_ne _ _ _ hne]
      exact hc
    simp only [appendChild, Arena.getNode, hA, h1]

/-- Witness for C4 at a concrete input: parent "1" exists, child "99" does not,
and the call rewrites the parent's child list to `["99"]`. -/
theorem c4_append_child_absent_witness :
    (("99" : String) ≠ "1") ∧ c4Arena "99" = none ∧
    appendChild c4Arena "1" "99" =
      updateA c4Arena "1" { mkElem "1" "div" [] none with children := ["99"] } := by
  refine ⟨by decide, rfl, ?_⟩
  have h := (c4_append_child_absent c4Arena "1" "99").2 (mkElem "1" "div" [] none)
    rfl (by decide) rfl
  exact h

/-- Claim C5: every structural mutation of spec section 4.1 - append/add_child,
insert_before, replace_child, remove (node detach and child removal) and
deep_clone - keeps the bidirectional parent/child link invariant: afterwards,
every arena node with a present parent pointer references a node whose child
list contains its id. Freshness of the id counter (always true of the global
monotonic counter) is assumed for deep_clone. -/
theorem c5_mutations_preserve_parent_links (op : DomOp) (a : Arena) (ctr : Nat)
    (hPO : ParentOK a) (hF : FreshCtr a ctr) :
    ParentOK (applyDomOp op (a, ctr)).1 := by
  cases op with
  | append pid cid => exact appendChild_parentOK a pid cid hPO
  | insertB pid nid rid => exact insertBefore_parentOK a pid nid rid hPO
  | replace pid nid oid => exact replaceChild_parentOK a pid nid oid hPO
  | removeN id => exact removeNode_parentOK a id hPO
  | removeC pid cid => exact removeChild_parentOK a pid cid hPO
  | cloneDeep fuel id => exact cloneNodeDeep_parentOK fuel a ctr id hPO hF

/-- Witness for C5 at a concrete input: the empty arena satisfies both
hypotheses and the invariant is preserved by a deep clone operation. -/
theorem c5_mutations_preserve_parent_links_witness :
    ParentOK emptyArena ∧ FreshCtr emptyArena 0 ∧
    ParentOK (applyDomOp (DomOp.cloneDeep 3 "7") (emptyArena, 0)).1 := by
  have hP : ParentOK emptyArena := fun id n pid h1 _ => Option.noConfusion h1
  have hF : FreshCtr emptyArena 0 := fun m _ => rfl
  exact ⟨hP, hF, c5_mutations_preserve_parent_links (DomOp.cloneDeep 3 "7") emptyArena 0 hP hF⟩

/-- Claim C8: the box-shorthand parser obeys the 1/2/4-value expansion law, and
every other whitespace-token count collapses to all-zero box values. -/
theorem c8_box_shorthand_law :
    parseBoxValue "10" = ⟨10, 10, 10, 10⟩ ∧
    parseBoxValue "10 20" = ⟨10, 20, 10, 20⟩ ∧
    parseBoxValue "1 2 3 4" = ⟨1, 2, 3, 4⟩ ∧
    ∀ s : String, (splitWs s).length ≠ 1 → (splitWs s).length ≠ 2 →
      (splitWs s).length ≠ 4 → parseBoxValue s = ⟨0, 0, 0, 0⟩ := by
  refine ⟨by with_unfolding_all rfl, by with_unfolding_all rfl, by with_unfolding_all rfl, ?_⟩
  intro s h1 h2 h4
  cases hs : splitWs s with
  | nil => simp only [parseBoxValue, hs]; rfl
  | cons t1 r1 =>
    cases r1 with
    | nil => exact absurd (by rw [hs]; rfl : (splitWs s).length = 1) h1
    | cons t2 r2 =>
      cases r2 with
      | nil => exact absurd (by rw [hs]; rfl : (splitWs s).length = 2) h2
      | cons t3 r3 =>
        cases r3 with
        | nil => simp only [parseBoxValue, hs]; rfl
        | cons t4 r4 =>
          cases r4 with
          | nil => exact absurd (by rw [hs]; rfl : (splitWs s).length = 4) h4
          | cons t5 r5 => simp only [parseBoxValue, hs]; rfl

/-- Witness for C8 at a concrete input: three tokens is not 1, 2 or 4, and the
result is all zeroes. -/
theorem c8_box_shorthand_law_witness :
    (splitWs "1 2 3").length ≠ 1 ∧ (splitWs "1 2 3").length ≠ 2 ∧
    (splitWs "1 2 3").length ≠ 4 ∧ parseBoxValue "1 2 3" = ⟨0, 0, 0, 0⟩ :=
  ⟨by decide, by decide, by decide,
    c8_box_shorthand_law.2.2.2 "1 2 3" (by decide) (by decide) (by decide)⟩

/-- Claim C10: a token with a unit suffix fails the plain-number parse and
contributes 0.0 for the sides it governs, while the other tokens take effect:
`"10px"` gives all zeroes, `"10 20px"` gives top/bottom 10 and left/right 0,
and in a 4-token value each unparsable token zeroes exactly its own side. -/
theorem c10_unit_tokens_contribute_zero :
    parseF32 "10px" = none ∧
    parseBoxValue "10px" = ⟨0, 0, 0, 0⟩ ∧
    parseBoxValue "10 20px" = ⟨10, 0, 10, 0⟩ ∧
    parseBoxValue "1 2px 3 4px" = ⟨1, 0, 3, 0⟩ := by
  refine ⟨?_, ?_, ?_, ?_⟩ <;> with_unfolding_all rfl

/-- Claim C9: the layout pass is deterministic (two passes over the same arena
snapshot, stylesheet and viewport return equal box lists) and performs no
mutation of the tree: the arena the traversal's state threads out is the arena
that was passed in. -/
theorem c9_layout_pure_and_deterministic (pi : String → StyleMap) (vw vh : ℚ)
    (ss : Option Stylesheet) (fuel : Nat) (dom : DOMNode) (arena : Arena) :
    layoutBoxes pi vw vh ss fuel dom arena = layoutBoxes pi vw vh ss fuel dom arena ∧
    (layoutRun pi vw vh ss fuel dom arena).map (fun r => r.2) =
      (layoutRun pi vw vh ss fuel dom arena).map (fun _ => arena) := by
  refine ⟨rfl, ?_⟩
  simp only [layoutRun]
  split
  · rfl
  next found =>
    split
    · rfl
    next root hR =>
      split
      next st hL =>
        exact congrArg some (layoutNode_arena pi vw vh ss fuel root _ st hL)
      next hL => rfl

/-- Claim C2 (counterexample): a bare `<span>Hello</span>` with no stylesheet
does NOT take the inline path - the default resolved display is "block", the
block test runs first, and the span gets a full block box (720 x 100), not the
text-metric estimate 5 x 16 x 0.6 = 48. -/
theorem c2_counterexample :
    (layoutBoxes trivialPi 800 600 none 5 c2Span c2Arena).map
        (fun bs => bs.map (fun b => (b.node_type, b.width, b.height)))
      = some [("span", 720, 100), ("text", 48, 96/5)] ∧
    (720 : ℚ) ≠ (strLen "Hello" : ℚ) * 16 * 0.6 := by
  constructor
  · with_unfolding_all rfl
  · with_unfolding_all decide

/-- Claim C2 (amended): for an element that fails the block test (resolved
lowercased display is not "block" and the tag is outside the block set) and
passes the inline test (display "inline" or tag in the inline set), one step of
`layout_node` takes exactly the inline path: wrap to a new line first when the
estimated extent would pass 90% of the viewport width, then emit a box of width
`character_count * font_size * 0.6` plus horizontal padding and height
`font_size * 1.2` plus vertical padding, then lay out the children in an inline
context. -/
theorem c2_inline_path (pi : String → StyleMap) (vw vh : ℚ) (ss : Option Stylesheet)
    (fuel : Nat) (node : DOMNode) (tag : String) (st : LoState)
    (htag : node.node_type = NodeType.Element tag)
    (hnb : isBlockB (lowerStr (getNodeStyles pi ss node).display) tag = false)
    (hni : isInlineB (lowerStr (getNodeStyles pi ss node).display) tag = true) :
    layoutNode pi vw vh ss (fuel + 1) node st =
      (let styles := getNodeStyles pi ss node
       let st1 := { st with inlineCtx := true }
       let text_content := extractTextContent node st1.arena
       let font_size := (parseF32 styles.font_size).getD 16
       let estimated_width := (strLen text_content : ℚ) * font_size * 0.6
       let estimated_height := font_size * 1.2
       let margin := parseBoxValue styles.margin
       let padding := parseBoxValue styles.padding
       let st2 :=
         if st1.x + estimated_width + margin.left + margin.right + padding.left + padding.right
             > vw * 0.9 then
           { st1 with x := 0, y := st1.y + st1.lineHeight, lineHeight := 0 }
         else st1
       let st3 := { st2 with x := st2.x + margin.left }
       let box : LayoutBox :=
       { x := st3.x,
         y := st3.y,
         width := estimated_width + padding.left + padding.right,
         height := estimated_height + padding.top + padding.bottom,
         node_type := tag,
         text_content := text_content,
         font_size := font_size,
         background_color := styles.background_color,
         color := styles.color,
         font_family := styles.font_family,
         border_color := styles.border_color,
         border_width := parseBoxValue styles.border_width,
         margin := margin,
         padding := padding,
         font_weight := (parseF32 styles.font_weight).getD 400,
         text_align := styles.text_align,
         flex_direction := styles.flex_direction,
         flex_wrap := styles.flex_wrap,
         justify_content := styles.justify_content,
         align_items := styles.align_items,
         flex_grow := (parseF32 styles.flex_grow).getD 0,
         flex_shrink := (parseF32 styles.flex_shrink).getD 1,
         flex_basis := styles.flex_basis,
         order := (parseI32 styles.order).getD 0,
         grid_column := styles.grid_column,
         grid_row := styles.grid_row,
         line_height := (parseF32 styles.line_height).getD 1.2,
         word_wrap := styles.word_wrap,
         white_space := styles.white_space,
         text_overflow := styles.text_overflow,
         color_scheme := styles.color_scheme }
       layoutKids (layoutNode pi vw vh ss fuel) node.children
         { st3 with boxes := st3.boxes ++ [box],
                    x := st3.x + estimated_width + padding.left + padding.right + margin.right,
                    lineHeight := max st3.lineHeight (estimated_height + padding.top + padding.bottom) }) := by
  simp only [layoutNode, layoutStep, htag, hnb, hni]
  rfl

/-- Witness for C2 at a concrete input: with the stylesheet
`span { display: inline }`, a `<span>Hello</span>` takes the inline path and its
box is 48 x 19.2 (5 characters x 16px x 0.6 by 16px x 1.2). -/
theorem c2_inline_path_witness :
    c2Span.node_type = NodeType.Element "span" ∧
    isBlockB (lowerStr (getNodeStyles trivialPi (some c2Sheet) c2Span).display) "span" = false ∧
    isInlineB (lowerStr (getNodeStyles trivialPi (some c2Sheet) c2Span).display) "span" = true ∧
    (layoutNode trivialPi 800 600 (some c2Sheet) (1 + 1) c2Span c2State).map
        (fun st => st.boxes.map (fun b => (b.node_type, b.width, b.height)))
      = some [("span", 48, 96/5), ("text", 48, 96/5)] := by
  refine ⟨rfl, by decide, by decide, ?_⟩
  have h := c2_inline_path trivialPi 800 600 (some c2Sheet) 1 c2Span "span" c2State
    rfl (by decide) (by decide)
  rw [h]
  with_unfolding_all rfl

/-- Claim C6 (counterexample): for a property outside the thirteen the layout
cascade applies - here `line-height`, which the layout pass itself reads - two
matching rules' declarations are both silently dropped by `apply_css_property`,
so the later rule does NOT determine the resolved value: the default "normal"
survives, equal to neither rule's value. -/
theorem c6_counterexample :
    matchesSelector c6Div "#d" = true ∧
    matchesSelector c6Div "div" = true ∧
    StyleMap.getProperty
        (applyStylesheetToNode c6Div
          { rules := [{ selector := "#d", declarations := [("line-height", "2")], specificity := 100 },
                      { selector := "div", declarations := [("line-height", "9")], specificity := 1 }] }
          StyleMap.default) "line-height" = some "normal" ∧
    (some "normal" : Option String) ≠ some "9" ∧
    (some "normal" : Option String) ≠ some "2" := by
  refine ⟨by decide, by decide, by decide, by decide, by decide⟩

/-- Claim C6 (amended): when two rules of a stylesheet both match a node and
both declare the same property, AND that property is one of the thirteen the
layout cascade applies (display, width, height, background-color, color,
font-size, font-family, border-width, border-color, padding, margin,
font-weight, text-align), the later rule's value is the resolved one, whatever
the two specificity scores are; any other declared property is dropped by the
cascade and neither rule affects the resolved value. -/
theorem c6_later_rule_wins (node : DOMNode) (base : StyleMap) (sel1 sel2 p v1 v2 : String)
    (spec1 spec2 : Nat)
    (hm1 : matchesSelector node sel1 = true)
    (hm2 : matchesSelector node sel2 = true)
    (hp : p ∈ ["display", "width", "height", "background-color", "color", "font-size",
               "font-family", "border-width", "border-color", "padding", "margin",
               "font-weight", "text-align"]) :
    StyleMap.getProperty
        (applyStylesheetToNode node
          { rules := [{ selector := sel1, declarations := [(p, v1)], specificity := spec1 },
                      { selector := sel2, declarations := [(p, v2)], specificity := spec2 }] }
          base) p = some v2 := by
  cases htag : node.node_type with
  | Text =>
    simp only [matchesSelector, htag] at hm1
    exact Bool.noConfusion hm1
  | Document =>
    simp only [matchesSelector, htag] at hm1
    exact Bool.noConfusion hm1
  | Element tag =>
    simp only [applyStylesheetToNode, htag, List.foldl, hm1, hm2, if_true]
    fin_cases hp <;> simp +decide [applyCssProperty, StyleMap.getProperty]

/-- Witness for C6 at a concrete input: on `<div id="d">`, the rule
`#d { color: red }` (specificity 100) precedes `div { color: blue }`
(specificity 1); both match, and the later, lower-specificity rule wins:
the resolved color is "blue". -/
theorem c6_later_rule_wins_witness :
    matchesSelector c6Div "#d" = true ∧
    matchesSelector c6Div "div" = true ∧
    StyleMap.getProperty
        (applyStylesheetToNode c6Div
          { rules := [{ selector := "#d", declarations := [("color", "red")], specificity := 100 },
                      { selector := "div", declarations := [("color", "blue")], specificity := 1 }] }
          StyleMap.default) "color" = some "blue" := by
  refine ⟨by decide, by decide, ?_⟩
  exact c6_later_rule_wins c6Div StyleMap.default "#d" "div" "color" "red" "blue" 100 1
    (by decide) (by decide) (by decide)

/-- Claim C7 (counterexample to non-emptiness): the layout of a document whose
tree has no element below it terminates but returns an EMPTY box list - the
claim's "non-empty" is not guaranteed by the code for every input tree. -/
theorem c7_counterexample :
    layoutBoxes trivialPi 800 600 none 5 c7Doc c7Arena = some [] ∧
    ¬ ∃ b bs, layoutBoxes trivialPi 800 600 none 5 c7Doc c7Arena = some (b :: bs) := by
  constructor
  · with_unfolding_all rfl
  · intro ⟨b, bs, hb⟩
    rw [(by with_unfolding_all rfl :
      layoutBoxes trivialPi 800 600 none 5 c7Doc c7Arena = some [])] at hb
    injection hb with hb
    exact List.noConfusion hb

/-- Claim C7 (amended, depth ceiling only): for every input tree whose nodes
all sit within the depth budget `fuel` - however many nodes it has, and with
dangling child ids allowed - the basic layout pass (the only one the entry
points call) terminates with a finite box list instead of recursing forever. -/
theorem c7_layout_terminates (pi : String → StyleMap) (vw vh : ℚ)
    (ss : Option Stylesheet) (fuel : Nat) (dom : DOMNode) (a : Arena)
    (hdom : nodeDepthLE a fuel dom = true) (hA : DepthOK a fuel) :
    ∃ boxes, layoutBoxes pi vw vh ss fuel dom a = some boxes := by
  have hfb := findBodyNodeId_total a fuel dom hdom
  simp only [layoutBoxes, layoutRun]
  split
  next hFB =>
    rw [hFB] at hfb
    exact Bool.noConfusion hfb
  next found hFB =>
    split
    next hR => exact ⟨[], rfl⟩
    next root hR =>
      have hroot := hA _ root hR
      have hsome := layoutNode_total pi vw vh ss fuel a root
        { arena := a, boxes := [], x := 0, y := 0, lineHeight := 0, inlineCtx := false }
        rfl hroot
      split
      next st hL => exact ⟨st.boxes, rfl⟩
      next hL =>
        rw [hL] at hsome
        exact Bool.noConfusion hsome

/-- Witness for C7 at a concrete input: the single-Document tree is within
depth budget 3, the arena is depth-bounded, and layout returns a box list. -/
theorem c7_layout_terminates_witness :
    nodeDepthLE c7Arena 3 c7Doc = true ∧ DepthOK c7Arena 3 ∧
    ∃ boxes, layoutBoxes trivialPi 800 600 none 3 c7Doc c7Arena = some boxes := by
  have hD : DepthOK c7Arena 3 := by
    intro id n h
    unfold c7Arena at h
    split at h
    · injection h with h
      rw [← h]
      decide
    · exact Option.noConfusion h
  exact ⟨by decide, hD, c7_layout_terminates trivialPi 800 600 none 3 c7Doc c7Arena (by decide) hD⟩

end RiftBrowser









